import Mathlib

/-!
Verification of the pinchot C API client core against its specification.

The definitions below are a shallow embedding of the C++ sources:
machine integers become `Nat`/`Int` (with explicit truncation where the
source narrows), `double` trigonometry becomes exact real arithmetic with
explicit truncation toward zero, byte buffers become `List Nat`, and the
fallible parsers return `Option`.
-/

namespace Pinchot

/-! ## Constants (joescan_pinchot.h, PinchotConstants.hpp, NetworkTypes.hpp) -/

def JS_PROFILE_DATA_LEN : Nat := 1456

def JS_PROFILE_DATA_INVALID_XY : Int := -32768

def JS_PROFILE_DATA_INVALID_BRIGHTNESS : Int := 0

def JS_SCAN_HEAD_PROFILES_MAX : Nat := 1000

def kPinchotConstantMaxScanRate : ℚ := 4000

def kPinchotConstantMinScanRate : ℚ := 1/5

def kCommandMagic : Nat := 0xFACE

def kDataMagic : Nat := 0xFACD

/-! ## DataPacket fragment layout (DataPacket.cpp, constructor)

For every processed (non-image) data type the constructor computes how many
values of that type the datagram at position `datagram_position` out of
`number_datagrams` carries, given `num_cols = end_column - start_column + 1`
and the per-type column stride `step`. -/

def DataPacket.numVals (num_cols step number_datagrams datagram_position : Nat) : Nat :=
  num_cols / (number_datagrams * step) +
    (if (num_cols / step) % number_datagrams > datagram_position then 1 else 0)

/-! ## Completed-profile ring (ScanHead::PushProfile / GetProfiles,
ScanHeadShared::kMaxCircularBufferSize)

The ring is a `boost::circular_buffer` of capacity 1000; `push_back` on a
full buffer overwrites the front (oldest) element.  The front of the list
models the oldest element. -/

def ScanHead.PushProfile {α : Type} (buf : List α) (profile : α) : List α :=
  if buf.length < JS_SCAN_HEAD_PROFILES_MAX then buf ++ [profile]
  else buf.drop 1 ++ [profile]

/-- `GetProfiles` pops up to `count` profiles from the front of the ring,
returning them in order together with the remaining ring. -/
def ScanHead.GetProfiles {α : Type} (buf : List α) (count : Nat) : List α × List α :=
  (buf.take count, buf.drop count)


end Pinchot

namespace Pinchot

/-! ## C7: the stride sum. -/

private lemma sum_ite_lt (N r : Nat) (h : r ≤ N) :
    (∑ p ∈ Finset.range N, if r > p then 1 else 0) = r := by
  have hf : (Finset.range N).filter (fun p => r > p) = Finset.range r := by
    ext p
    simp only [Finset.mem_filter, Finset.mem_range]
    omega
  rw [Finset.sum_boole, hf, Finset.card_range]
  exact Nat.cast_id r

/-- Claim C7: for `num_cols ≥ 1`, `step ≥ 1`, `number_datagrams ≥ 1`, summing
the per-fragment value count `num_vals` over all datagram positions
`p ∈ [0, number_datagrams)` yields `num_cols / step` under integer division. -/
theorem dataPacket_stride_sum (num_cols step number_datagrams : Nat)
    (hc : 1 ≤ num_cols) (hs : 1 ≤ step) (hN : 1 ≤ number_datagrams) :
    (∑ p ∈ Finset.range number_datagrams,
        DataPacket.numVals num_cols step number_datagrams p) = num_cols / step := by
  unfold DataPacket.numVals
  rw [Finset.sum_add_distrib, Finset.sum_const, Finset.card_range, smul_eq_mul]
  have hdiv : num_cols / (number_datagrams * step) = (num_cols / step) / number_datagrams := by
    rw [Nat.div_div_eq_div_mul, Nat.mul_comm]
  rw [hdiv, sum_ite_lt _ _ (le_of_lt (Nat.mod_lt _ (by omega)))]
  exact Nat.div_add_mod (num_cols / step) number_datagrams

/-- Witness for C7 at `num_cols = 1456`, `step = 1`, `number_datagrams = 4`. -/
theorem dataPacket_stride_sum_witness :
    1 ≤ 1456 ∧ 1 ≤ 1 ∧ 1 ≤ 4 ∧
      (∑ p ∈ Finset.range 4, DataPacket.numVals 1456 1 4 p) = 1456 / 1 := by
  refine ⟨by decide, by decide, by decide, ?_⟩
  exact dataPacket_stride_sum 1456 1 4 (by decide) (by decide) (by decide)

/-! ## C4: the profile ring bound, eviction and FIFO hand-out. -/

/-- Claim C4: the completed-profile ring never exceeds depth 1000; a push onto
a full ring evicts exactly the oldest element while appending the newest at
the back; and profiles are handed to the consumer in FIFO order (the popped
profiles are the oldest ones, in arrival order, and together with the
remainder reconstitute the ring). -/
theorem pushProfile_ring_bound {α : Type} (buf : List α) (profile : α)
    (hlen : buf.length ≤ JS_SCAN_HEAD_PROFILES_MAX) :
    (ScanHead.PushProfile buf profile).length ≤ JS_SCAN_HEAD_PROFILES_MAX ∧
      (buf.length = JS_SCAN_HEAD_PROFILES_MAX →
        ∃ oldest rest, buf = oldest :: rest ∧
          ScanHead.PushProfile buf profile = rest ++ [profile]) ∧
      (∀ count : Nat,
        (ScanHead.GetProfiles buf count).1 = buf.take count ∧
          (ScanHead.GetProfiles buf count).1 ++ (ScanHead.GetProfiles buf count).2 = buf) := by
  refine ⟨?_, ?_, ?_⟩
  · unfold ScanHead.PushProfile
    unfold JS_SCAN_HEAD_PROFILES_MAX at hlen ⊢
    split
    · simp only [List.length_append, List.length_cons, List.length_nil]
      omega
    · simp only [List.length_append, List.length_drop, List.length_cons, List.length_nil]
      omega
  · intro hfull
    have hfull' : buf.length = 1000 := hfull
    obtain ⟨oldest, rest, hbuf⟩ : ∃ oldest rest, buf = oldest :: rest := by
      cases buf with
      | nil => simp at hfull'
      | cons a l => exact ⟨a, l, rfl⟩
    refine ⟨oldest, rest, hbuf, ?_⟩
    unfold ScanHead.PushProfile
    have hnot : ¬ (buf.length < JS_SCAN_HEAD_PROFILES_MAX) := by
      unfold JS_SCAN_HEAD_PROFILES_MAX
      omega
    rw [if_neg hnot]
    simp [hbuf]
  · intro count
    exact ⟨rfl, List.take_append_drop count buf⟩

/-! ## ScanHeadSender::SendMain (ImageRequestMessage.hpp source, second unit)

The sender task pops `(destination_ip, bytes)` messages off its FIFO queue.
For a message with a non-zero destination it calls `sendto`; a result `≤ 0`
raises `std::runtime_error`, and the surrounding catch block executes
`break`, leaving the `while (is_running)` loop.  A zero destination is
consumed without a send.  `send` abstracts the success of `sendto`; the
result lists the successfully delivered messages in order. -/

def ScanHeadSender.SendMain (send : Nat × List Nat → Bool) :
    List (Nat × List Nat) → List (Nat × List Nat)
  | [] => []
  | msg :: rest =>
    if msg.1 ≠ 0 then
      if send msg then msg :: ScanHeadSender.SendMain send rest else []
    else ScanHeadSender.SendMain send rest

/-- Counterexample for claim C2: with a queue of two deliverable messages
where the first send fails and the second would succeed, the sender delivers
nothing at all — a single failed send terminates the sender loop and prevents
the later message from being sent. -/
theorem sendMain_failed_send_stops_loop :
    ScanHeadSender.SendMain (fun m => m.1 == 2) [(1, [0]), (2, [1])] = [] ∧
      (fun (m : Nat × List Nat) => m.1 == 2) (2, [1]) = true ∧
      (2, [1]) ∈ [((1 : Nat), [0]), ((2 : Nat), [(1 : Nat)])] ∧
      (2, [1]) ∉ ScanHeadSender.SendMain (fun m => m.1 == 2) [(1, [0]), (2, [1])] := by
  decide

/-- Claim C2 (amended): a failed send terminates the sender loop.  Before the
first failed send every message with a non-zero destination is delivered, in
queue order; the failed message and everything queued after it are never
delivered.  When no send fails, exactly the messages with non-zero destination
are delivered. -/
theorem sendMain_stops_at_first_failure (send : Nat × List Nat → Bool)
    (q1 q2 : List (Nat × List Nat)) (m : Nat × List Nat)
    (hq1 : ∀ m' ∈ q1, m'.1 ≠ 0 → send m' = true)
    (hm : m.1 ≠ 0) (hfail : send m = false) :
    ScanHeadSender.SendMain send (q1 ++ m :: q2) =
        q1.filter (fun x => decide (x.1 ≠ 0)) ∧
      ∀ q : List (Nat × List Nat), (∀ x ∈ q, send x = true) →
        ScanHeadSender.SendMain send q = q.filter (fun x => decide (x.1 ≠ 0)) := by
  constructor
  · induction q1 with
    | nil =>
      simp only [List.nil_append, List.filter_nil]
      unfold ScanHeadSender.SendMain
      rw [if_pos hm, if_neg (by simp [hfail])]
    | cons a q1 ih =>
      have ha := hq1 a (by simp)
      have hrest : ∀ m' ∈ q1, m'.1 ≠ 0 → send m' = true := by
        intro m' hm' h0
        exact hq1 m' (by simp [hm']) h0
      by_cases h0 : a.1 = 0
      · simp only [List.cons_append, List.filter_cons]
        unfold ScanHeadSender.SendMain
        rw [if_neg (by simp [h0])]
        simp only [h0, decide_eq_true_eq]
        rw [if_neg (by simp)]
        exact ih hrest
      · simp only [List.cons_append, List.filter_cons]
        unfold ScanHeadSender.SendMain
        rw [if_pos h0, if_pos (ha h0)]
        simp only [decide_eq_true_eq]
        rw [if_pos h0]
        rw [ih hrest]
  · intro q hq
    induction q with
    | nil => rfl
    | cons a q ih =>
      have hrest : ∀ x ∈ q, send x = true := fun x hx => hq x (by simp [hx])
      simp only [List.filter_cons]
      unfold ScanHeadSender.SendMain
      by_cases h0 : a.1 = 0
      · rw [if_neg (by simp [h0])]
        simp only [h0, decide_eq_true_eq]
        rw [if_neg (by simp)]
        exact ih hrest
      · rw [if_pos h0, if_pos (hq a (by simp))]
        simp only [decide_eq_true_eq]
        rw [if_pos h0, ih hrest]

/-- Witness for the amended claim C2 at a concrete queue. -/
theorem sendMain_stops_at_first_failure_witness :
    (∀ m' ∈ [((3 : Nat), [(9 : Nat)])], m'.1 ≠ 0 → (fun (m : Nat × List Nat) => m.1 == 3) m' = true) ∧
      (2 : Nat) ≠ 0 ∧ (fun (m : Nat × List Nat) => m.1 == 3) (2, [1]) = false ∧
      (ScanHeadSender.SendMain (fun m => m.1 == 3) ([(3, [9])] ++ (2, [1]) :: [(3, [5])]) =
          [((3 : Nat), [(9 : Nat)])].filter (fun x => decide (x.1 ≠ 0)) ∧
        ∀ q : List (Nat × List Nat), (∀ x ∈ q, (fun (m : Nat × List Nat) => m.1 == 3) x = true) →
          ScanHeadSender.SendMain (fun m => m.1 == 3) q =
            q.filter (fun x => decide (x.1 ≠ 0))) := by
  refine ⟨by decide, by decide, by decide, ?_⟩
  exact sendMain_stops_at_first_failure (fun m => m.1 == 3) [(3, [9])] [(3, [5])] (2, [1])
    (by decide) (by decide) (by decide)

/-! ## Max scan rate (ScanManager::Connect, ScanManager::SetScanRate)

`Connect` finishes by folding the per-head status `max_scan_rate` values into
the member `scan_rate_hz_current_max`, keeping the smaller value each time.
`SetScanRate` rejects a requested rate outside `[kScanRateHzMin,
kScanRateHzMax]` and a rate above `scan_rate_hz_current_max`. -/

def kScanRateHzMax : ℚ := kPinchotConstantMaxScanRate

def kScanRateHzMin : ℚ := kPinchotConstantMinScanRate

/-- Modelled from the spec: the initial value of the `scan_rate_hz_current_max`
member.  Its declaration lives in a ScanManager header revision that is not
among the sources; the spec's max-scan-rate formula starts the minimum at
`kPinchotMax = 4000 Hz`, so the fold over head statuses is seeded with it. -/
def scanRateHzCurrentMaxInit : ℚ := kPinchotConstantMaxScanRate

def ScanManager.ConnectMaxScanRate (statuses : List ℚ) : ℚ :=
  statuses.foldl (fun acc rate_hz => if rate_hz < acc then rate_hz else acc)
    scanRateHzCurrentMaxInit

def ScanManager.SetScanRateAccepts (scan_rate_hz_current_max rate_hz : ℚ) : Bool :=
  if rate_hz > kScanRateHzMax ∨ rate_hz < kScanRateHzMin then false
  else if rate_hz > scan_rate_hz_current_max then false
  else true

/-- The formula claimed by the spec for the system maximum scan rate (C3):
minimum over heads of `min(kPinchotMax, 1e6 / laser_on_time_max_us,
status.max_scan_rate)`, each head given as the pair
`(laser_on_time_max_us, status.max_scan_rate)`. -/
def SpecMaxScanRate (heads : List (Nat × ℚ)) : ℚ :=
  (heads.map (fun h =>
      min kPinchotConstantMaxScanRate (min (1000000 / (h.1 : ℚ)) h.2))).foldl
    min kPinchotConstantMaxScanRate

/-- Counterexample for claim C3: for a single head whose status reports
`max_scan_rate = 4000` while `laser_on_time_max_us = 650000`, the spec formula
yields `1e6 / 650000 = 20/13 Hz` but the code's bound stays at 4000 Hz — no
laser-on-time term enters the computed maximum. -/
theorem connect_max_rate_ignores_laser_on_time :
    ScanManager.ConnectMaxScanRate [4000] = 4000 ∧
      SpecMaxScanRate [(650000, 4000)] = 20 / 13 ∧
      ScanManager.ConnectMaxScanRate [4000] ≠ SpecMaxScanRate [(650000, 4000)] := by
  have hc : ScanManager.ConnectMaxScanRate [4000] = 4000 := by decide
  have hs : SpecMaxScanRate [(650000, 4000)] = 20 / 13 := by
    unfold SpecMaxScanRate kPinchotConstantMaxScanRate
    simp only [List.map_cons, List.map_nil, List.foldl_cons, List.foldl_nil]
    norm_num [min_def]
  refine ⟨hc, hs, ?_⟩
  rw [hc, hs]
  norm_num

private lemma foldl_keep_smaller_eq_min (l : List ℚ) :
    ∀ a : ℚ, l.foldl (fun acc r => if r < acc then r else acc) a = l.foldl min a := by
  induction l with
  | nil => intro a; rfl
  | cons b l ih =>
    intro a
    simp only [List.foldl_cons]
    have : (if b < a then b else a) = min a b := by
      rcases lt_or_ge b a with h | h
      · rw [if_pos h, min_eq_right (le_of_lt h)]
      · rw [if_neg (not_lt.mpr h), min_eq_left h]
    rw [this, ih]

private lemma foldl_min_le_init (l : List ℚ) : ∀ a : ℚ, l.foldl min a ≤ a := by
  induction l with
  | nil => intro a; exact le_refl a
  | cons b l ih =>
    intro a
    simp only [List.foldl_cons]
    exact le_trans (ih (min a b)) (min_le_left a b)

/-- Claim C3 (amended): after `Connect`, a requested scan rate is accepted by
`SetScanRate` exactly when it lies between `kScanRateHzMin` and the minimum of
`kPinchotMax = 4000 Hz` and all the `max_scan_rate` values reported in the
heads' status messages.  No `1e6 / laser_on_time_max_us` term enters the
bound. -/
theorem scanRate_validation_bound (statuses : List ℚ) (rate_hz : ℚ) :
    ScanManager.SetScanRateAccepts (ScanManager.ConnectMaxScanRate statuses) rate_hz = true ↔
      (kScanRateHzMin ≤ rate_hz ∧
        rate_hz ≤ statuses.foldl min kPinchotConstantMaxScanRate) := by
  have hbound : ScanManager.ConnectMaxScanRate statuses =
      statuses.foldl min kPinchotConstantMaxScanRate := by
    unfold ScanManager.ConnectMaxScanRate scanRateHzCurrentMaxInit
    exact foldl_keep_smaller_eq_min statuses kPinchotConstantMaxScanRate
  have hle : statuses.foldl min kPinchotConstantMaxScanRate ≤ kPinchotConstantMaxScanRate :=
    foldl_min_le_init statuses kPinchotConstantMaxScanRate
  unfold ScanManager.SetScanRateAccepts
  rw [hbound]
  constructor
  · intro h
    split_ifs at h with h1 h2
    push_neg at h1
    push_neg at h2
    exact ⟨h1.2, h2⟩
  · rintro ⟨hmin, hmax⟩
    have h1 : ¬ (rate_hz > kScanRateHzMax ∨ rate_hz < kScanRateHzMin) := by
      push_neg
      constructor
      · unfold kScanRateHzMax
        exact le_trans hmax hle
      · exact hmin
    rw [if_neg h1, if_neg (not_lt.mpr hmax)]

/-! ## AlignmentParams (AlignmentParams.hpp / AlignmentParams.cpp)

The `double` trigonometry is modelled with exact real arithmetic; the
`static_cast<int32_t>` applied to each output coordinate is truncation toward
zero.  The constructor precomputes `sin_roll = sin(roll·π/180)`,
`cos_roll = cos(roll·π/180)` and `cos_yaw = cos(yaw·π/180)` with yaw 0° or
180°; the negative-angle scalars satisfy `sin_neg_roll = -sin_roll`,
`cos_neg_roll = cos_roll` and `cos_neg_yaw = cos_yaw` exactly, and appear in
`MillToCamera` in that form. -/

noncomputable def truncZ (r : ℝ) : ℤ := if 0 ≤ r then ⌊r⌋ else ⌈r⌉

structure AlignmentParams where
  sin_roll : ℝ
  cos_roll : ℝ
  cos_yaw : ℝ
  shift_x_1000 : ℝ
  shift_y_1000 : ℝ

/-- `AlignmentParams::AlignmentParams(roll, shift_x, shift_y, flip_x)`
(AlignmentParams.cpp); `roll` in degrees, shifts in inches. -/
noncomputable def AlignmentParams.ofRollShift (roll shift_x shift_y : ℝ)
    (flip_x : Bool) : AlignmentParams :=
  { sin_roll := Real.sin (roll * (Real.pi / 180))
    cos_roll := Real.cos (roll * (Real.pi / 180))
    cos_yaw := Real.cos ((if flip_x then (180 : ℝ) else 0) * (Real.pi / 180))
    shift_x_1000 := shift_x * 1000
    shift_y_1000 := shift_y * 1000 }

/-- `AlignmentParams::CameraToMill(x, y)` (AlignmentParams.hpp). -/
noncomputable def AlignmentParams.CameraToMill (a : AlignmentParams) (x y : ℤ) : ℤ × ℤ :=
  (truncZ ((x : ℝ) * a.cos_yaw * a.cos_roll - (y : ℝ) * a.sin_roll + a.shift_x_1000),
   truncZ ((x : ℝ) * a.cos_yaw * a.sin_roll + (y : ℝ) * a.cos_roll + a.shift_y_1000))

/-- `AlignmentParams::MillToCamera(x, y)` (AlignmentParams.hpp), with
`cos_neg_yaw = cos_yaw`, `cos_neg_roll = cos_roll`,
`sin_neg_roll = -sin_roll`. -/
noncomputable def AlignmentParams.MillToCamera (a : AlignmentParams) (x y : ℤ) : ℤ × ℤ :=
  (truncZ (((x : ℝ) - a.shift_x_1000) * a.cos_yaw * a.cos_roll -
      ((y : ℝ) - a.shift_y_1000) * a.cos_yaw * (-a.sin_roll)),
   truncZ (((x : ℝ) - a.shift_x_1000) * (-a.sin_roll) +
      ((y : ℝ) - a.shift_y_1000) * a.cos_roll))

private lemma truncZ_err (r : ℝ) : |(truncZ r : ℝ) - r| < 1 := by
  unfold truncZ
  split
  · rw [abs_lt]
    constructor
    · push_cast
      linarith [Int.sub_one_lt_floor r]
    · push_cast
      linarith [Int.floor_le r]
  · rw [abs_lt]
    constructor
    · push_cast
      linarith [Int.le_ceil r]
    · push_cast
      linarith [Int.ceil_lt_add_one r]

private lemma truncZ_near (z : ℤ) (r : ℝ) (h : |r - (z : ℝ)| ≤ 3/2) :
    |truncZ r - z| ≤ 2 := by
  have h1 := truncZ_err r
  have h2 : |((truncZ r - z : ℤ) : ℝ)| < 5/2 := by
    push_cast
    calc |(truncZ r : ℝ) - (z : ℝ)|
        ≤ |(truncZ r : ℝ) - r| + |r - (z : ℝ)| := abs_sub_le _ _ _
      _ < 5/2 := by linarith
  by_contra hcon
  push_neg at hcon
  have h3 : (3 : ℝ) ≤ |((truncZ r - z : ℤ) : ℝ)| := by
    rw [← Int.cast_abs]
    exact_mod_cast (by omega : (3 : ℤ) ≤ |truncZ r - z|)
  linarith

private lemma abs_add_abs_le_of_sq (c s : ℝ) (h : c ^ 2 + s ^ 2 = 1) :
    |c| + |s| ≤ 3/2 := by
  nlinarith [sq_nonneg (|c| - |s|), sq_abs c, sq_abs s, abs_nonneg c, abs_nonneg s,
    sq_nonneg (|c| + |s| - 3/2)]

private lemma err_bound (c s d₁ d₂ : ℝ) (hcs : |c| + |s| ≤ 3/2)
    (h₁ : |d₁| ≤ 1) (h₂ : |d₂| ≤ 1) : |c * d₁ + s * d₂| ≤ 3/2 := by
  calc |c * d₁ + s * d₂| ≤ |c * d₁| + |s * d₂| := abs_add _ _
    _ = |c| * |d₁| + |s| * |d₂| := by rw [abs_mul, abs_mul]
    _ ≤ |c| * 1 + |s| * 1 :=
        add_le_add (mul_le_mul_of_nonneg_left h₁ (abs_nonneg c))
          (mul_le_mul_of_nonneg_left h₂ (abs_nonneg s))
    _ ≤ 3/2 := by linarith

/-- Claim C6 (amended): for every alignment whose precomputed scalars satisfy
`cos_roll² + sin_roll² = 1` and `cos_yaw = ±1` (every alignment built from a
roll angle and a flip flag does) and every integer mil point, both round trips
`MillToCamera ∘ CameraToMill` and `CameraToMill ∘ MillToCamera` return to
within 2 mils of the original point in each coordinate.  The claimed 1-mil
bound is false: the two truncations of up to 1 mil each get mixed by the
rotation, and the counterexample below reaches an error of exactly 2 mils. -/
theorem alignment_roundtrip_error_le_two (a : AlignmentParams)
    (hring : a.cos_roll ^ 2 + a.sin_roll ^ 2 = 1)
    (hyaw : a.cos_yaw = 1 ∨ a.cos_yaw = -1) (x y : ℤ) :
    |(a.MillToCamera (a.CameraToMill x y).1 (a.CameraToMill x y).2).1 - x| ≤ 2 ∧
      |(a.MillToCamera (a.CameraToMill x y).1 (a.CameraToMill x y).2).2 - y| ≤ 2 ∧
      |(a.CameraToMill (a.MillToCamera x y).1 (a.MillToCamera x y).2).1 - x| ≤ 2 ∧
      |(a.CameraToMill (a.MillToCamera x y).1 (a.MillToCamera x y).2).2 - y| ≤ 2 := by
  obtain ⟨s, c, k, sx, sy⟩ := a
  simp only [AlignmentParams.CameraToMill, AlignmentParams.MillToCamera] at hring hyaw ⊢
  have hk2 : k ^ 2 = 1 := by
    rcases hyaw with h | h <;> rw [h] <;> norm_num
  have habsk : |k| = 1 := by
    rcases hyaw with h | h <;> rw [h] <;> norm_num
  have hcs : |c| + |s| ≤ 3/2 := abs_add_abs_le_of_sq c s hring
  set U : ℝ := (x : ℝ) * k * c - (y : ℝ) * s + sx with hU
  set V : ℝ := (x : ℝ) * k * s + (y : ℝ) * c + sy with hV
  set A : ℝ := ((x : ℝ) - sx) * k * c - ((y : ℝ) - sy) * k * (-s) with hA
  set B : ℝ := ((x : ℝ) - sx) * (-s) + ((y : ℝ) - sy) * c with hB
  have hdU : |(truncZ U : ℝ) - U| ≤ 1 := (truncZ_err U).le
  have hdV : |(truncZ V : ℝ) - V| ≤ 1 := (truncZ_err V).le
  have hdA : |(truncZ A : ℝ) - A| ≤ 1 := (truncZ_err A).le
  have hdB : |(truncZ B : ℝ) - B| ≤ 1 := (truncZ_err B).le
  refine ⟨?_, ?_, ?_, ?_⟩
  · apply truncZ_near
    have e : ((truncZ U : ℝ) - sx) * k * c - ((truncZ V : ℝ) - sy) * k * (-s) - (x : ℝ) =
        c * (k * ((truncZ U : ℝ) - U)) + s * (k * ((truncZ V : ℝ) - V)) := by
      rw [hU, hV]
      linear_combination (x : ℝ) * k ^ 2 * hring + (x : ℝ) * hk2
    rw [e]
    refine err_bound c s _ _ hcs ?_ ?_
    · rw [abs_mul, habsk, one_mul]
      exact hdU
    · rw [abs_mul, habsk, one_mul]
      exact hdV
  · apply truncZ_near
    have e : ((truncZ U : ℝ) - sx) * (-s) + ((truncZ V : ℝ) - sy) * c - (y : ℝ) =
        c * ((truncZ V : ℝ) - V) + s * (-((truncZ U : ℝ) - U)) := by
      rw [hU, hV]
      linear_combination (y : ℝ) * hring
    rw [e]
    refine err_bound c s _ _ hcs hdV ?_
    rw [abs_neg]
    exact hdU
  · apply truncZ_near
    have e : (truncZ A : ℝ) * k * c - (truncZ B : ℝ) * s + sx - (x : ℝ) =
        c * (k * ((truncZ A : ℝ) - A)) + s * (-((truncZ B : ℝ) - B)) := by
      rw [hA, hB]
      linear_combination ((x : ℝ) - sx) * c ^ 2 * hk2 + ((x : ℝ) - sx) * hring +
        ((y : ℝ) - sy) * c * s * hk2
    rw [e]
    refine err_bound c s _ _ hcs ?_ ?_
    · rw [abs_mul, habsk, one_mul]
      exact hdA
    · rw [abs_neg]
      exact hdB
  · apply truncZ_near
    have e : (truncZ A : ℝ) * k * s + (truncZ B : ℝ) * c + sy - (y : ℝ) =
        c * ((truncZ B : ℝ) - B) + s * (k * ((truncZ A : ℝ) - A)) := by
      rw [hA, hB]
      linear_combination ((x : ℝ) - sx) * c * s * hk2 + ((y : ℝ) - sy) * s ^ 2 * hk2 +
        ((y : ℝ) - sy) * hring
    rw [e]
    refine err_bound c s _ _ hcs hdB ?_
    rw [abs_mul, habsk, one_mul]
    exact hdA

/-- Witness for the amended claim C6 at the identity alignment and the point
`(3, 4)`. -/
theorem alignment_roundtrip_error_le_two_witness :
    ((⟨0, 1, 1, 0, 0⟩ : AlignmentParams).cos_roll ^ 2 +
        (⟨0, 1, 1, 0, 0⟩ : AlignmentParams).sin_roll ^ 2 = 1) ∧
      ((⟨0, 1, 1, 0, 0⟩ : AlignmentParams).cos_yaw = 1 ∨
        (⟨0, 1, 1, 0, 0⟩ : AlignmentParams).cos_yaw = -1) ∧
      (|((⟨0, 1, 1, 0, 0⟩ : AlignmentParams).MillToCamera
            ((⟨0, 1, 1, 0, 0⟩ : AlignmentParams).CameraToMill 3 4).1
            ((⟨0, 1, 1, 0, 0⟩ : AlignmentParams).CameraToMill 3 4).2).1 - 3| ≤ 2 ∧
        |((⟨0, 1, 1, 0, 0⟩ : AlignmentParams).MillToCamera
            ((⟨0, 1, 1, 0, 0⟩ : AlignmentParams).CameraToMill 3 4).1
            ((⟨0, 1, 1, 0, 0⟩ : AlignmentParams).CameraToMill 3 4).2).2 - 4| ≤ 2 ∧
        |((⟨0, 1, 1, 0, 0⟩ : AlignmentParams).CameraToMill
            ((⟨0, 1, 1, 0, 0⟩ : AlignmentParams).MillToCamera 3 4).1
            ((⟨0, 1, 1, 0, 0⟩ : AlignmentParams).MillToCamera 3 4).2).1 - 3| ≤ 2 ∧
        |((⟨0, 1, 1, 0, 0⟩ : AlignmentParams).CameraToMill
            ((⟨0, 1, 1, 0, 0⟩ : AlignmentParams).MillToCamera 3 4).1
            ((⟨0, 1, 1, 0, 0⟩ : AlignmentParams).MillToCamera 3 4).2).2 - 4| ≤ 2) := by
  refine ⟨by norm_num, Or.inl rfl, ?_⟩
  exact alignment_roundtrip_error_le_two ⟨0, 1, 1, 0, 0⟩ (by norm_num) (Or.inl rfl) 3 4

/-- Counterexample for claim C6: with roll 45°, shifts 0.0009 in and no flip,
the point `(10, 0)` maps under `CameraToMill` to `(7, 7)` (both coordinates
truncate an exact value of `5·√2 + 0.9 ≈ 7.971`), and `MillToCamera` maps that
back to x-coordinate `⌊6.1·√2⌋ = 8`: the round trip misses the original x by
2 mils, refuting the claimed 1-mil bound. -/
theorem alignment_roundtrip_misses_by_two :
    (AlignmentParams.ofRollShift 45 (9/10000) (9/10000) false).CameraToMill 10 0 = (7, 7) ∧
      ((AlignmentParams.ofRollShift 45 (9/10000) (9/10000) false).MillToCamera
          ((AlignmentParams.ofRollShift 45 (9/10000) (9/10000) false).CameraToMill 10 0).1
          ((AlignmentParams.ofRollShift 45 (9/10000) (9/10000) false).CameraToMill 10 0).2).1 -
        10 = -2 ∧
      ¬ |((AlignmentParams.ofRollShift 45 (9/10000) (9/10000) false).MillToCamera
            ((AlignmentParams.ofRollShift 45 (9/10000) (9/10000) false).CameraToMill 10 0).1
            ((AlignmentParams.ofRollShift 45 (9/10000) (9/10000) false).CameraToMill 10 0).2).1 -
          10| ≤ 1 := by
  have hs2 := Real.sq_sqrt (show (0 : ℝ) ≤ 2 by norm_num)
  have hs2nn := Real.sqrt_nonneg 2
  have hlo : (1.414 : ℝ) < Real.sqrt 2 := by nlinarith
  have hhi : Real.sqrt 2 < 1.415 := by nlinarith
  have hsin : (AlignmentParams.ofRollShift 45 (9/10000) (9/10000) false).sin_roll =
      Real.sqrt 2 / 2 := by
    unfold AlignmentParams.ofRollShift
    simp only
    rw [show (45 : ℝ) * (Real.pi / 180) = Real.pi / 4 by ring, Real.sin_pi_div_four]
  have hcos : (AlignmentParams.ofRollShift 45 (9/10000) (9/10000) false).cos_roll =
      Real.sqrt 2 / 2 := by
    unfold AlignmentParams.ofRollShift
    simp only
    rw [show (45 : ℝ) * (Real.pi / 180) = Real.pi / 4 by ring, Real.cos_pi_div_four]
  have hyawv : (AlignmentParams.ofRollShift 45 (9/10000) (9/10000) false).cos_yaw = 1 := by
    unfold AlignmentParams.ofRollShift
    simp only [if_neg (by decide : ¬ false = true)]
    rw [show (0 : ℝ) * (Real.pi / 180) = 0 by ring, Real.cos_zero]
  have hsx : (AlignmentParams.ofRollShift 45 (9/10000) (9/10000) false).shift_x_1000 =
      9/10 := by
    unfold AlignmentParams.ofRollShift
    norm_num
  have hsy : (AlignmentParams.ofRollShift 45 (9/10000) (9/10000) false).shift_y_1000 =
      9/10 := by
    unfold AlignmentParams.ofRollShift
    norm_num
  have htr7 : truncZ (5 * Real.sqrt 2 + 9/10) = 7 := by
    unfold truncZ
    rw [if_pos (by positivity)]
    rw [Int.floor_eq_iff]
    constructor
    · push_cast
      nlinarith
    · push_cast
      nlinarith
  have htr8 : truncZ (61/10 * Real.sqrt 2) = 8 := by
    unfold truncZ
    rw [if_pos (by positivity)]
    rw [Int.floor_eq_iff]
    constructor
    · push_cast
      nlinarith
    · push_cast
      nlinarith
  have hc2m : (AlignmentParams.ofRollShift 45 (9/10000) (9/10000) false).CameraToMill 10 0 =
      (7, 7) := by
    unfold AlignmentParams.CameraToMill
    rw [hsin, hcos, hyawv, hsx, hsy]
    rw [show ((10 : ℤ) : ℝ) * 1 * (Real.sqrt 2 / 2) - ((0 : ℤ) : ℝ) * (Real.sqrt 2 / 2) +
        9/10 = 5 * Real.sqrt 2 + 9/10 by push_cast; ring]
    rw [show ((10 : ℤ) : ℝ) * 1 * (Real.sqrt 2 / 2) + ((0 : ℤ) : ℝ) * (Real.sqrt 2 / 2) +
        9/10 = 5 * Real.sqrt 2 + 9/10 by push_cast; ring]
    rw [htr7]
  have hm2c : ((AlignmentParams.ofRollShift 45 (9/10000) (9/10000) false).MillToCamera 7 7).1 =
      8 := by
    unfold AlignmentParams.MillToCamera
    rw [hsin, hcos, hyawv, hsx, hsy]
    simp only
    rw [show (((7 : ℤ) : ℝ) - 9/10) * 1 * (Real.sqrt 2 / 2) -
        (((7 : ℤ) : ℝ) - 9/10) * 1 * (-(Real.sqrt 2 / 2)) = 61/10 * Real.sqrt 2 by
      push_cast; ring]
    exact htr8
  refine ⟨hc2m, ?_, ?_⟩
  · rw [hc2m]
    simp only
    rw [hm2c]
    decide
  · rw [hc2m]
    simp only
    rw [hm2c]
    decide

/-! ## Scan window (ScanWindow.cpp, WindowConstraint in the sources of
ImageRequestMessage.cpp)

Window edges arrive in inches; `static_cast<int32_t>(v * 1000.0)` scales to
mils with C's truncation toward zero.  Inch values are modelled as exact
rationals. -/

/-- C's `static_cast<int32_t>` on a (here: exact rational) floating value:
truncation toward zero. -/
def ratTrunc (q : ℚ) : ℤ := if 0 ≤ q then ⌊q⌋ else ⌈q⌉

structure Point2D where
  x : ℤ
  y : ℤ
  deriving DecidableEq

structure WindowConstraint where
  p0 : Point2D
  p1 : Point2D
  deriving DecidableEq

/-- `WindowConstraint::Satisfies`: the 64-bit cross product test
`(p.x - c0.x)*(c1.y - c0.y) - (p.y - c0.y)*(c1.x - c0.x) >= 0`. -/
def WindowConstraint.Satisfies (c : WindowConstraint) (p : Point2D) : Prop :=
  0 ≤ (p.x - c.p0.x) * (c.p1.y - c.p0.y) - (p.y - c.p0.y) * (c.p1.x - c.p0.x)

instance (c : WindowConstraint) (p : Point2D) : Decidable (c.Satisfies p) := by
  unfold WindowConstraint.Satisfies
  infer_instance

structure ScanWindow where
  top : ℚ
  bottom : ℚ
  left : ℚ
  right : ℚ
  constraints : List WindowConstraint
  deriving DecidableEq

/-- `ScanWindow::ScanWindow(top, bottom, left, right)` (ScanWindow.cpp): the
range errors become `none`; otherwise the four half-plane constraints are
recorded in the order top edge, bottom edge, right edge, left edge. -/
def ScanWindow.construct (top bottom left right : ℚ) : Option ScanWindow :=
  if top ≤ bottom then none
  else if right ≤ left then none
  else
    let top1000 := ratTrunc (top * 1000)
    let bottom1000 := ratTrunc (bottom * 1000)
    let left1000 := ratTrunc (left * 1000)
    let right1000 := ratTrunc (right * 1000)
    some { top := top, bottom := bottom, left := left, right := right,
           constraints :=
             [⟨⟨left1000, top1000⟩, ⟨right1000, top1000⟩⟩,
              ⟨⟨right1000, bottom1000⟩, ⟨left1000, bottom1000⟩⟩,
              ⟨⟨right1000, top1000⟩, ⟨right1000, bottom1000⟩⟩,
              ⟨⟨left1000, bottom1000⟩, ⟨left1000, top1000⟩⟩] }

/-- A point satisfies the whole stored constraint set. -/
def satisfiesAllConstraints (cs : List WindowConstraint) (p : Point2D) : Prop :=
  ∀ c ∈ cs, c.Satisfies p

instance (cs : List WindowConstraint) (p : Point2D) :
    Decidable (satisfiesAllConstraints cs p) := by
  unfold satisfiesAllConstraints
  infer_instance

/-- The claim's rectangle test, in mils: `p` lies inside
`[left, right] × [bottom, top]`. -/
def inRectMils (top1000 bottom1000 left1000 right1000 : ℤ) (p : Point2D) : Prop :=
  left1000 ≤ p.x ∧ p.x ≤ right1000 ∧ bottom1000 ≤ p.y ∧ p.y ≤ top1000

instance (t b l r : ℤ) (p : Point2D) : Decidable (inRectMils t b l r p) := by
  unfold inRectMils
  infer_instance

/-- Counterexample for claim C5: the sub-mil-wide window
`top = 1, bottom = -1, left = 0.0001, right = 0.0004` constructs successfully
(`top > bottom`, `right > left`), but both vertical edges collapse to
`x = 0` in mils, turning the top/bottom constraints into tautologies: the
point `(0, 5000)` satisfies all four stored constraints yet lies far outside
the mil-scaled rectangle. -/
theorem scanWindow_submil_breaks_rect_iff :
    ScanWindow.construct 1 (-1) (1/10000) (4/10000) =
        some { top := 1, bottom := -1, left := 1/10000, right := 4/10000,
               constraints :=
                 [⟨⟨0, 1000⟩, ⟨0, 1000⟩⟩, ⟨⟨0, -1000⟩, ⟨0, -1000⟩⟩,
                  ⟨⟨0, 1000⟩, ⟨0, -1000⟩⟩, ⟨⟨0, -1000⟩, ⟨0, 1000⟩⟩] } ∧
      satisfiesAllConstraints
          [⟨⟨0, 1000⟩, ⟨0, 1000⟩⟩, ⟨⟨0, -1000⟩, ⟨0, -1000⟩⟩,
           ⟨⟨0, 1000⟩, ⟨0, -1000⟩⟩, ⟨⟨0, -1000⟩, ⟨0, 1000⟩⟩] ⟨0, 5000⟩ ∧
      ¬ inRectMils (ratTrunc ((1 : ℚ) * 1000)) (ratTrunc ((-1 : ℚ) * 1000))
          (ratTrunc ((1 : ℚ)/10000 * 1000)) (ratTrunc ((4 : ℚ)/10000 * 1000)) ⟨0, 5000⟩ := by
  have e1 : ratTrunc ((1 : ℚ) * 1000) = 1000 := by
    rw [ratTrunc, if_pos (by norm_num)]
    norm_num
  have e2 : ratTrunc ((-1 : ℚ) * 1000) = -1000 := by
    rw [ratTrunc, if_neg (by norm_num)]
    rw [show ((-1 : ℚ) * 1000) = ((-1000 : ℤ) : ℚ) by norm_num, Int.ceil_intCast]
  have e3 : ratTrunc ((1 : ℚ)/10000 * 1000) = 0 := by
    rw [ratTrunc, if_pos (by norm_num)]
    norm_num
  have e4 : ratTrunc ((4 : ℚ)/10000 * 1000) = 0 := by
    rw [ratTrunc, if_pos (by norm_num)]
    norm_num
  refine ⟨?_, by decide, ?_⟩
  · unfold ScanWindow.construct
    rw [if_neg (by norm_num), if_neg (by norm_num)]
    simp only
    rw [e1, e2, e3, e4]
  · rw [e1, e2, e3, e4]
    decide

/-- Claim C5 (amended): the constructor rejects exactly `top ≤ bottom` or
`right ≤ left`; and for every successfully constructed window whose mil-scaled
bounds are non-degenerate in both axes (`left1000 < right1000` and
`bottom1000 < top1000` — guaranteed whenever the window is at least one mil
wide and tall), a point satisfies all four stored half-plane constraints if
and only if it lies in the mil-scaled rectangle.  (For sub-mil windows the
degenerate edges make some constraints tautological and the equivalence
fails, as the counterexample shows.) -/
theorem scanWindow_constraints_characterize_rect :
    (∀ top bottom left right : ℚ,
        ScanWindow.construct top bottom left right = none ↔
          (top ≤ bottom ∨ right ≤ left)) ∧
      ∀ (top bottom left right : ℚ) (w : ScanWindow),
        ScanWindow.construct top bottom left right = some w →
        ratTrunc (left * 1000) < ratTrunc (right * 1000) →
        ratTrunc (bottom * 1000) < ratTrunc (top * 1000) →
        ∀ p : Point2D,
          satisfiesAllConstraints w.constraints p ↔
            inRectMils (ratTrunc (top * 1000)) (ratTrunc (bottom * 1000))
              (ratTrunc (left * 1000)) (ratTrunc (right * 1000)) p := by
  constructor
  · intro top bottom left right
    unfold ScanWindow.construct
    split_ifs with h1 h2
    · simp [h1]
    · simp [h2]
    · simp [h1, h2]
  · intro top bottom left right w hw hlr hbt p
    set t := ratTrunc (top * 1000) with ht
    set b := ratTrunc (bottom * 1000) with hb
    set l := ratTrunc (left * 1000) with hl
    set r := ratTrunc (right * 1000) with hr
    unfold ScanWindow.construct at hw
    split_ifs at hw
    simp only [Option.some_inj] at hw
    have hcs : w.constraints =
        [⟨⟨l, t⟩, ⟨r, t⟩⟩, ⟨⟨r, b⟩, ⟨l, b⟩⟩, ⟨⟨r, t⟩, ⟨r, b⟩⟩, ⟨⟨l, b⟩, ⟨l, t⟩⟩] := by
      rw [← hw]
    rw [hcs]
    unfold satisfiesAllConstraints inRectMils
    simp only [List.forall_mem_cons, List.forall_mem_nil, and_true]
    unfold WindowConstraint.Satisfies
    simp only
    constructor
    · rintro ⟨s1, s2, s3, s4, -⟩
      refine ⟨by nlinarith, by nlinarith, by nlinarith, by nlinarith⟩
    · rintro ⟨h1, h2, h3, h4⟩
      refine ⟨?_, ?_, ?_, ?_, fun x hx => absurd hx (List.not_mem_nil x)⟩
      · have e : (p.x - l) * (t - t) - (p.y - t) * (r - l) = (t - p.y) * (r - l) := by ring
        rw [e]
        exact mul_nonneg (sub_nonneg.mpr h4) (sub_nonneg.mpr hlr.le)
      · have e : (p.x - r) * (b - b) - (p.y - b) * (l - r) = (p.y - b) * (r - l) := by ring
        rw [e]
        exact mul_nonneg (sub_nonneg.mpr h3) (sub_nonneg.mpr hlr.le)
      · have e : (p.x - r) * (b - t) - (p.y - t) * (r - r) = (r - p.x) * (t - b) := by ring
        rw [e]
        exact mul_nonneg (sub_nonneg.mpr h2) (sub_nonneg.mpr hbt.le)
      · have e : (p.x - l) * (t - b) - (p.y - b) * (l - l) = (p.x - l) * (t - b) := by ring
        rw [e]
        exact mul_nonneg (sub_nonneg.mpr h1) (sub_nonneg.mpr hbt.le)

/-- Witness for the amended claim C5 at the window
`(top, bottom, left, right) = (10, -10, -10, 10)` and the point `(500, 500)`. -/
theorem scanWindow_constraints_characterize_rect_witness :
    ScanWindow.construct 10 (-10) (-10) 10 =
        some { top := 10, bottom := -10, left := -10, right := 10,
               constraints :=
                 [⟨⟨-10000, 10000⟩, ⟨10000, 10000⟩⟩,
                  ⟨⟨10000, -10000⟩, ⟨-10000, -10000⟩⟩,
                  ⟨⟨10000, 10000⟩, ⟨10000, -10000⟩⟩,
                  ⟨⟨-10000, -10000⟩, ⟨-10000, 10000⟩⟩] } ∧
      ratTrunc ((-10 : ℚ) * 1000) < ratTrunc ((10 : ℚ) * 1000) ∧
      (satisfiesAllConstraints
          [⟨⟨-10000, 10000⟩, ⟨10000, 10000⟩⟩,
           ⟨⟨10000, -10000⟩, ⟨-10000, -10000⟩⟩,
           ⟨⟨10000, 10000⟩, ⟨10000, -10000⟩⟩,
           ⟨⟨-10000, -10000⟩, ⟨-10000, 10000⟩⟩] ⟨500, 500⟩ ↔
        inRectMils (ratTrunc ((10 : ℚ) * 1000)) (ratTrunc ((-10 : ℚ) * 1000))
          (ratTrunc ((-10 : ℚ) * 1000)) (ratTrunc ((10 : ℚ) * 1000)) ⟨500, 500⟩) := by
  have ep : ratTrunc ((10 : ℚ) * 1000) = 10000 := by
    rw [ratTrunc, if_pos (by norm_num)]
    norm_num
  have en : ratTrunc ((-10 : ℚ) * 1000) = -10000 := by
    rw [ratTrunc, if_neg (by norm_num)]
    rw [show ((-10 : ℚ) * 1000) = ((-10000 : ℤ) : ℚ) by norm_num, Int.ceil_intCast]
  have hc : ScanWindow.construct 10 (-10) (-10) 10 =
      some { top := 10, bottom := -10, left := -10, right := 10,
             constraints :=
               [⟨⟨-10000, 10000⟩, ⟨10000, 10000⟩⟩,
                ⟨⟨10000, -10000⟩, ⟨-10000, -10000⟩⟩,
                ⟨⟨10000, 10000⟩, ⟨10000, -10000⟩⟩,
                ⟨⟨-10000, -10000⟩, ⟨-10000, 10000⟩⟩] } := by
    unfold ScanWindow.construct
    rw [if_neg (by norm_num), if_neg (by norm_num)]
    simp only
    rw [ep, en]
  refine ⟨hc, by rw [ep, en]; norm_num, ?_⟩
  have h := (scanWindow_constraints_characterize_rect.2 10 (-10) (-10) 10 _ hc
    (by rw [ep, en]; norm_num) (by rw [ep, en]; norm_num) ⟨500, 500⟩)
  simpa using h

/-! ## Profile (Profile.cpp / Profile.hpp)

The `DataType` bit values (NetworkTypes.hpp). -/

def DataType.Brightness : Nat := 0x1

def DataType.XYData : Nat := 0x2

def DataType.Width : Nat := 0x4

def DataType.SecondMoment : Nat := 0x8

def DataType.Subpixel : Nat := 0x10

def DataType.Image : Nat := 0x20

structure JsProfileData where
  x : Int
  y : Int
  brightness : Int
  deriving DecidableEq

def invalidProfileEntry : JsProfileData :=
  { x := JS_PROFILE_DATA_INVALID_XY, y := JS_PROFILE_DATA_INVALID_XY,
    brightness := JS_PROFILE_DATA_INVALID_BRIGHTNESS }

/-- In-place update of one list element (`data[idx] = ...`). -/
def listModify {α : Type} (f : α → α) : Nat → List α → List α
  | _, [] => []
  | 0, a :: as => f a :: as
  | n + 1, a :: as => a :: listModify f n as

structure Profile where
  data : Option (List JsProfileData)
  dataSize : Nat
  imageSize : Nat
  numValidGeometry : Nat
  numValidBrightness : Nat
  deriving DecidableEq

/-- `Profile::Profile(DataType mask)` (Profile.cpp).  The point array is a
`std::array` member, default-initialized with indeterminate contents; the
constructor fills it with the invalid sentinels (and sets `data_size = 1456`)
only when the mask contains Brightness or XYData.  `data := none` models the
array being left indeterminate, `data_size` left `0`. -/
def Profile.init (mask : Nat) : Profile :=
  { data :=
      if mask &&& DataType.Brightness ≠ 0 ∨ mask &&& DataType.XYData ≠ 0 then
        some (List.replicate JS_PROFILE_DATA_LEN invalidProfileEntry)
      else none
    dataSize :=
      if mask &&& DataType.Brightness ≠ 0 ∨ mask &&& DataType.XYData ≠ 0 then
        JS_PROFILE_DATA_LEN
      else 0
    imageSize := if mask &&& DataType.Image ≠ 0 then 1456 * 1088 else 0
    numValidGeometry := 0
    numValidBrightness := 0 }

/-- `Profile::InsertPoint` (Profile.hpp): writes `x`/`y` and bumps the
valid-geometry counter only when `idx < data_size`. -/
def Profile.InsertPoint (p : Profile) (idx : Nat) (vx vy : Int) : Profile :=
  if idx < p.dataSize then
    { p with
      data := p.data.map (listModify (fun d => { d with x := vx, y := vy }) idx)
      numValidGeometry := p.numValidGeometry + 1 }
  else p

/-- `Profile::InsertBrightness` (Profile.hpp). -/
def Profile.InsertBrightness (p : Profile) (idx : Nat) (value : Int) : Profile :=
  if idx < p.dataSize then
    { p with
      data := p.data.map (listModify (fun d => { d with brightness := value }) idx)
      numValidBrightness := p.numValidBrightness + 1 }
  else p

/-- `Profile::InsertPointAndBrightness`: writes the point and the brightness
and bumps both counters. -/
def Profile.InsertPointAndBrightness (p : Profile) (idx : Nat) (vx vy value : Int) : Profile :=
  if idx < p.dataSize then
    { p with
      data := p.data.map
        (listModify (fun _ => { x := vx, y := vy, brightness := value }) idx)
      numValidGeometry := p.numValidGeometry + 1
      numValidBrightness := p.numValidBrightness + 1 }
  else p

/-- The insert operations the assembler performs on a profile. -/
inductive InsertOp where
  | point (idx : Nat) (x y : Int)
  | brightness (idx : Nat) (value : Int)
  deriving DecidableEq

def InsertOp.index : InsertOp → Nat
  | point i _ _ => i
  | brightness i _ => i

def Profile.applyOp (p : Profile) : InsertOp → Profile
  | InsertOp.point i vx vy => p.InsertPoint i vx vy
  | InsertOp.brightness i v => p.InsertBrightness i v

def Profile.applyOps (p : Profile) (ops : List InsertOp) : Profile :=
  ops.foldl Profile.applyOp p

private lemma listModify_getD_ne {α : Type} (f : α → α) (d : α) :
    ∀ (i j : Nat) (l : List α), i ≠ j → (listModify f i l).getD j d = l.getD j d := by
  intro i j l
  induction l generalizing i j with
  | nil => intro _; cases i <;> rfl
  | cons a as ih =>
    intro hne
    cases i with
    | zero =>
      cases j with
      | zero => exact absurd rfl hne
      | succ j => simp [listModify]
    | succ i =>
      cases j with
      | zero => simp [listModify]
      | succ j =>
        simp only [listModify, List.getD_cons_succ]
        exact ih i j (by omega)

private lemma getD_replicate_self {α : Type} (d : α) :
    ∀ (n i : Nat), (List.replicate n d).getD i d = d := by
  intro n
  induction n with
  | zero => intro i; rfl
  | succ n ih =>
    intro i
    cases i with
    | zero => rfl
    | succ i => simpa [List.replicate] using ih i

private lemma applyOps_entry_untouched (idx : Nat) :
    ∀ (ops : List InsertOp) (p : Profile),
      (∀ op ∈ ops, op.index ≠ idx) →
      (∀ l, p.data = some l → l.getD idx invalidProfileEntry = invalidProfileEntry) →
      ∀ l, (p.applyOps ops).data = some l →
        l.getD idx invalidProfileEntry = invalidProfileEntry := by
  intro ops
  induction ops with
  | nil => intro p _ hp l hl; exact hp l hl
  | cons op ops ih =>
    intro p hops hp l hl
    have hop : op.index ≠ idx := hops op (by simp)
    have hrest : ∀ o ∈ ops, o.index ≠ idx := fun o ho => hops o (by simp [ho])
    refine ih (p.applyOp op) hrest ?_ l hl
    intro l' hl'
    cases op with
    | point i vx vy =>
      simp only [InsertOp.index] at hop
      simp only [Profile.applyOp, Profile.InsertPoint] at hl'
      split at hl'
      · simp only at hl'
        cases hpd : p.data with
        | none => rw [hpd] at hl'; simp at hl'
        | some l₀ =>
          rw [hpd] at hl'
          simp only [Option.map_some'] at hl'
          have : l' = listModify (fun d => { d with x := vx, y := vy }) i l₀ :=
            (Option.some_inj.mp hl').symm
          rw [this, listModify_getD_ne _ _ _ _ _ hop]
          exact hp l₀ hpd
      · exact hp l' hl'
    | brightness i v =>
      simp only [InsertOp.index] at hop
      simp only [Profile.applyOp, Profile.InsertBrightness] at hl'
      split at hl'
      · simp only at hl'
        cases hpd : p.data with
        | none => rw [hpd] at hl'; simp at hl'
        | some l₀ =>
          rw [hpd] at hl'
          simp only [Option.map_some'] at hl'
          have : l' = listModify (fun d => { d with brightness := v }) i l₀ :=
            (Option.some_inj.mp hl').symm
          rw [this, listModify_getD_ne _ _ _ _ _ hop]
          exact hp l₀ hpd
      · exact hp l' hl'

/-- Counterexample for claim C10: `Width` (0x4) is a non-image data-type mask,
yet the constructor leaves the 1456-entry point array completely untouched —
the sentinel fill only runs when the mask contains Brightness or XYData — so
its entries are not initialized to the invalid sentinel values. -/
theorem profile_width_mask_not_initialized :
    DataType.Width &&& DataType.Image = 0 ∧
      (Profile.init DataType.Width).data = none ∧
      (Profile.init DataType.Width).data ≠
        some (List.replicate JS_PROFILE_DATA_LEN invalidProfileEntry) := by
  refine ⟨by decide, by decide, ?_⟩
  intro h
  rw [show (Profile.init DataType.Width).data = none by decide] at h
  exact Option.noConfusion h

/-- Claim C10 (amended): a profile allocated for a mask containing Brightness
or XYData has all 1456 point entries initialized to the invalid sentinels;
`InsertPoint` and `InsertBrightness` with `idx ≥ 1456` leave any profile whose
`data_size` does not exceed 1456 unchanged; and after any sequence of inserts,
an entry whose index was never targeted by an insert still holds the
sentinels — every entry is either the sentinel or was written by an in-range
insert. -/
theorem profile_sentinel_invariant (mask : Nat) (ops : List InsertOp) :
    ((mask &&& DataType.Brightness ≠ 0 ∨ mask &&& DataType.XYData ≠ 0) →
      (Profile.init mask).data =
        some (List.replicate JS_PROFILE_DATA_LEN invalidProfileEntry)) ∧
      (∀ (p : Profile) (idx : Nat) (vx vy value : Int),
        p.dataSize ≤ JS_PROFILE_DATA_LEN → JS_PROFILE_DATA_LEN ≤ idx →
        p.InsertPoint idx vx vy = p ∧ p.InsertBrightness idx value = p) ∧
      (∀ idx, (∀ op ∈ ops, op.index ≠ idx) →
        ∀ l, ((Profile.init mask).applyOps ops).data = some l →
          l.getD idx invalidProfileEntry = invalidProfileEntry) := by
  refine ⟨?_, ?_, ?_⟩
  · intro h
    unfold Profile.init
    simp only [if_pos h]
  · intro p idx vx vy value hsize hidx
    constructor
    · unfold Profile.InsertPoint
      rw [if_neg (by omega)]
    · unfold Profile.InsertBrightness
      rw [if_neg (by omega)]
  · intro idx hops l hl
    refine applyOps_entry_untouched idx ops (Profile.init mask) hops ?_ l hl
    intro l₀ hl₀
    unfold Profile.init at hl₀
    simp only at hl₀
    split at hl₀
    · rw [(Option.some_inj.mp hl₀).symm]
      exact getD_replicate_self invalidProfileEntry _ idx
    · exact Option.noConfusion hl₀

/-- Witness for the amended claim C10 at mask `Brightness|XYData = 3` and a
single in-range insert at index 5. -/
theorem profile_sentinel_invariant_witness :
    (Profile.init 3).data =
        some (List.replicate JS_PROFILE_DATA_LEN invalidProfileEntry) ∧
      (Profile.init 3).InsertPoint 2000 1 2 = Profile.init 3 ∧
      ((((Profile.init 3).applyOps [InsertOp.point 5 1 2]).data.getD []).getD 9
          invalidProfileEntry) = invalidProfileEntry := by
  obtain ⟨h1, h2, h3⟩ := profile_sentinel_invariant 3 [InsertOp.point 5 1 2]
  refine ⟨h1 (Or.inl (by decide)), ?_, ?_⟩
  · exact (h2 (Profile.init 3) 2000 1 2 0 (by decide) (by decide)).1
  · have h9 : ∀ op ∈ [InsertOp.point 5 1 2], op.index ≠ 9 := by decide
    cases hd : ((Profile.init 3).applyOps [InsertOp.point 5 1 2]).data with
    | none => rfl
    | some l =>
      simp only [Option.getD]
      exact h3 9 h9 l hd

/-! ## ScanRequest wire codec (ScanRequestMessage.cpp / ScanRequestMessage.hpp)

`SerializeIntegralToBytes` (TcpSerializationHelpers, in the sources of
NetworkInterface.cpp) byte-swaps each integral value to network order and
appends its bytes, i.e. writes the value big-endian. -/

def u16be (v : Nat) : List Nat := [v / 256 % 256, v % 256]

def u32be (v : Nat) : List Nat :=
  [v / 16777216 % 256, v / 65536 % 256, v / 256 % 256, v % 256]

/-- Sequential datagram readers; the C++ deserializer walks an `index` through
the byte vector, which the consumed-prefix style models. -/
def readU8? : List Nat → Option (Nat × List Nat)
  | [] => none
  | b :: rest => some (b, rest)

def readU16? : List Nat → Option (Nat × List Nat)
  | b1 :: b0 :: rest => some (b1 * 256 + b0, rest)
  | _ => none

def readU32? : List Nat → Option (Nat × List Nat)
  | b3 :: b2 :: b1 :: b0 :: rest =>
    some (((b3 * 256 + b2) * 256 + b1) * 256 + b0, rest)
  | _ => none

/-- Number of set bits (`std::bitset::count`). -/
def countBits (n : Nat) : Nat :=
  if h : n = 0 then 0
  else countBits (n / 2) + n % 2
decreasing_by exact Nat.div_lt_self (Nat.pos_of_ne_zero h) (by norm_num)

structure ScanRequest where
  m_magic : Nat
  m_request_type : Nat
  m_scan_head_id : Nat
  m_camera_id : Nat
  m_laser_id : Nat
  DEPRECATED_DO_NOT_USE : Nat
  m_laser_exposure_min_us : Nat
  m_laser_exposure_def_us : Nat
  m_laser_exposure_max_us : Nat
  m_camera_exposure_min_us : Nat
  m_camera_exposure_def_us : Nat
  m_camera_exposure_max_us : Nat
  m_laser_detection_threshold : Nat
  m_saturation_threshold : Nat
  m_saturation_percentage : Nat
  m_average_intensity : Nat
  m_scan_interval_us : Nat
  m_scan_offset_us : Nat
  m_number_of_scans : Nat
  m_client_ip : Nat
  m_client_port : Nat
  m_flags : Nat
  m_request_sequence : Nat
  m_data_types : Nat
  m_start_col : Nat
  m_end_col : Nat
  m_steps : List Nat
  deriving DecidableEq

/-- `ScanRequest::Length()`: `74 + m_steps.size() * 2`. -/
def ScanRequest.Length (r : ScanRequest) : Nat := 74 + r.m_steps.length * 2

/-- `ScanRequest::Serialize(uint8_t request_sequence)`
(ScanRequestMessage.cpp): the magic constant, the length byte, the request
type, then every field in wire order, each integral value big-endian; one u16
per step value at the end.  `push_back` of a `uint8_t`-typed value is modelled
with an explicit `% 256`. -/
def ScanRequest.Serialize (r : ScanRequest) (request_sequence : Nat) : List Nat :=
  u16be kCommandMagic ++ [r.Length % 256, r.m_request_type % 256] ++
  u32be r.m_client_ip ++ u16be r.m_client_port ++
  [request_sequence % 256, r.m_scan_head_id % 256, r.m_camera_id % 256,
   r.m_laser_id % 256, r.DEPRECATED_DO_NOT_USE % 256, r.m_flags % 256] ++
  u32be r.m_laser_exposure_min_us ++ u32be r.m_laser_exposure_def_us ++
  u32be r.m_laser_exposure_max_us ++
  u32be r.m_camera_exposure_min_us ++ u32be r.m_camera_exposure_def_us ++
  u32be r.m_camera_exposure_max_us ++
  u32be r.m_laser_detection_threshold ++ u32be r.m_saturation_threshold ++
  u32be r.m_saturation_percentage ++ u32be r.m_average_intensity ++
  u32be r.m_scan_interval_us ++ u32be r.m_scan_offset_us ++
  u32be r.m_number_of_scans ++
  u16be r.m_data_types ++ u16be r.m_start_col ++ u16be r.m_end_col ++
  r.m_steps.bind u16be

/-- The step-reading loop of `ScanRequest::ScanRequest(const Datagram &)`:
`for (int i = 1; i <= m_data_types; i <<= 1) if (i & m_data_types) read u16`.
The fuel bounds the number of loop iterations (16 suffice for a u16 mask). -/
def readSteps? (dataTypes : Nat) : Nat → Nat → List Nat → Option (List Nat × List Nat)
  | _bit, 0, l => some ([], l)
  | bit, fuel + 1, l =>
    if bit ≤ dataTypes then
      if dataTypes &&& bit ≠ 0 then
        match readU16? l with
        | none => none
        | some (s, l') =>
          match readSteps? dataTypes (bit * 2) fuel l' with
          | none => none
          | some (steps, l'') => some (s :: steps, l'')
      else readSteps? dataTypes (bit * 2) fuel l
    else some ([], l)

/-- `ScanRequest::ScanRequest(const Datagram &datagram)`
(ScanRequestMessage.cpp): reads every field in wire order; throws (`none`) on
a wrong magic and on an invalid `UdpPacketType` integral (valid values are
0..7); the size byte is read but not validated (both checks in the source are
commented out). -/
def ScanRequest.Deserialize (datagram : List Nat) : Option ScanRequest :=
  match readU16? datagram with
  | none => none
  | some (magic, l1) =>
  if magic ≠ kCommandMagic then none else
  match readU8? l1 with
  | none => none
  | some (_size, l2) =>
  match readU8? l2 with
  | none => none
  | some (request_type, l3) =>
  if 7 < request_type then none else
  match readU32? l3 with
  | none => none
  | some (client_ip, l4) =>
  match readU16? l4 with
  | none => none
  | some (client_port, l5) =>
  match readU8? l5 with
  | none => none
  | some (request_sequence, l6) =>
  match readU8? l6 with
  | none => none
  | some (scan_head_id, l7) =>
  match readU8? l7 with
  | none => none
  | some (camera_id, l8) =>
  match readU8? l8 with
  | none => none
  | some (laser_id, l9) =>
  match readU8? l9 with
  | none => none
  | some (deprecated_byte, l10) =>
  match readU8? l10 with
  | none => none
  | some (flags, l11) =>
  match readU32? l11 with
  | none => none
  | some (laser_exposure_min, l12) =>
  match readU32? l12 with
  | none => none
  | some (laser_exposure_def, l13) =>
  match readU32? l13 with
  | none => none
  | some (laser_exposure_max, l14) =>
  match readU32? l14 with
  | none => none
  | some (camera_exposure_min, l15) =>
  match readU32? l15 with
  | none => none
  | some (camera_exposure_def, l16) =>
  match readU32? l16 with
  | none => none
  | some (camera_exposure_max, l17) =>
  match readU32? l17 with
  | none => none
  | some (laser_detection_threshold, l18) =>
  match readU32? l18 with
  | none => none
  | some (saturation_threshold, l19) =>
  match readU32? l19 with
  | none => none
  | some (saturation_percentage, l20) =>
  match readU32? l20 with
  | none => none
  | some (average_intensity, l21) =>
  match readU32? l21 with
  | none => none
  | some (scan_interval, l22) =>
  match readU32? l22 with
  | none => none
  | some (scan_offset, l23) =>
  match readU32? l23 with
  | none => none
  | some (number_of_scans, l24) =>
  match readU16? l24 with
  | none => none
  | some (data_types, l25) =>
  match readU16? l25 with
  | none => none
  | some (start_col, l26) =>
  match readU16? l26 with
  | none => none
  | some (end_col, l27) =>
  match readSteps? data_types 1 17 l27 with
  | none => none
  | some (steps, _l28) =>
  some { m_magic := magic, m_request_type := request_type,
         m_scan_head_id := scan_head_id, m_camera_id := camera_id,
         m_laser_id := laser_id, DEPRECATED_DO_NOT_USE := deprecated_byte,
         m_laser_exposure_min_us := laser_exposure_min,
         m_laser_exposure_def_us := laser_exposure_def,
         m_laser_exposure_max_us := laser_exposure_max,
         m_camera_exposure_min_us := camera_exposure_min,
         m_camera_exposure_def_us := camera_exposure_def,
         m_camera_exposure_max_us := camera_exposure_max,
         m_laser_detection_threshold := laser_detection_threshold,
         m_saturation_threshold := saturation_threshold,
         m_saturation_percentage := saturation_percentage,
         m_average_intensity := average_intensity,
         m_scan_interval_us := scan_interval,
         m_scan_offset_us := scan_offset,
         m_number_of_scans := number_of_scans,
         m_client_ip := client_ip, m_client_port := client_port,
         m_flags := flags, m_request_sequence := request_sequence,
         m_data_types := data_types, m_start_col := start_col,
         m_end_col := end_col, m_steps := steps }

/-- A valid scan request: every field within its wire width, a valid request
type, the magic constant in place, and one step entry per set bit of the
data-type mask. -/
def ScanRequest.WellFormed (r : ScanRequest) : Prop :=
  r.m_magic = kCommandMagic ∧ r.m_request_type ≤ 7 ∧
  r.m_scan_head_id < 256 ∧ r.m_camera_id < 256 ∧ r.m_laser_id < 256 ∧
  r.DEPRECATED_DO_NOT_USE < 256 ∧ r.m_flags < 256 ∧ r.m_request_sequence < 256 ∧
  r.m_laser_exposure_min_us < 4294967296 ∧ r.m_laser_exposure_def_us < 4294967296 ∧
  r.m_laser_exposure_max_us < 4294967296 ∧ r.m_camera_exposure_min_us < 4294967296 ∧
  r.m_camera_exposure_def_us < 4294967296 ∧ r.m_camera_exposure_max_us < 4294967296 ∧
  r.m_laser_detection_threshold < 4294967296 ∧ r.m_saturation_threshold < 4294967296 ∧
  r.m_saturation_percentage < 4294967296 ∧ r.m_average_intensity < 4294967296 ∧
  r.m_scan_interval_us < 4294967296 ∧ r.m_scan_offset_us < 4294967296 ∧
  r.m_number_of_scans < 4294967296 ∧
  r.m_client_ip < 4294967296 ∧ r.m_client_port < 65536 ∧
  r.m_data_types < 65536 ∧ r.m_start_col < 65536 ∧ r.m_end_col < 65536 ∧
  r.m_steps.length = countBits r.m_data_types ∧ ∀ s ∈ r.m_steps, s < 65536

private lemma readU16?_u16be (v : Nat) (hv : v < 65536) (rest : List Nat) :
    readU16? (u16be v ++ rest) = some (v, rest) := by
  unfold u16be readU16?
  simp only [List.cons_append, List.nil_append]
  congr 2
  omega

private lemma readU32?_u32be (v : Nat) (hv : v < 4294967296) (rest : List Nat) :
    readU32? (u32be v ++ rest) = some (v, rest) := by
  unfold u32be readU32?
  simp only [List.cons_append, List.nil_append]
  congr 2
  omega

private lemma countBits_zero : countBits 0 = 0 := by
  unfold countBits
  rfl

private lemma countBits_of_ne_zero (n : Nat) (h : n ≠ 0) :
    countBits n = countBits (n / 2) + n % 2 := by
  rw [countBits]
  rw [dif_neg h]

private lemma countBits_le (k : Nat) : ∀ n, n < 2 ^ k → countBits n ≤ k := by
  induction k with
  | zero =>
    intro n hn
    interval_cases n
    exact le_of_eq countBits_zero
  | succ k ih =>
    intro n hn
    by_cases h0 : n = 0
    · rw [h0, countBits_zero]
      omega
    · rw [countBits_of_ne_zero n h0]
      have h1 : n / 2 < 2 ^ k := by
        rw [pow_succ] at hn
        omega
      have := ih (n / 2) h1
      omega

private lemma and_two_pow_ne_zero_iff (dt k : Nat) :
    dt &&& 2 ^ k ≠ 0 ↔ dt / 2 ^ k % 2 = 1 := by
  rw [Nat.and_two_pow]
  rcases h : dt.testBit k with _ | _
  · rw [Nat.testBit_to_div_mod] at h
    simp only [Bool.toNat_false, zero_mul, ne_eq, not_true_eq_false, false_iff]
    simpa using h
  · rw [Nat.testBit_to_div_mod] at h
    simp only [Bool.toNat_true, one_mul, ne_eq]
    constructor
    · intro _
      simpa using h
    · intro _
      positivity

private lemma readSteps?_spec : ∀ (fuel k dt : Nat) (steps rest : List Nat),
    dt / 2 ^ k < 2 ^ fuel →
    steps.length = countBits (dt / 2 ^ k) →
    (∀ s ∈ steps, s < 65536) →
    readSteps? dt (2 ^ k) fuel (steps.bind u16be ++ rest) = some (steps, rest) := by
  intro fuel
  induction fuel with
  | zero =>
    intro k dt steps rest hf hlen _
    have h0 : dt / 2 ^ k = 0 := by
      rw [pow_zero] at hf
      exact Nat.lt_one_iff.mp hf
    rw [h0, countBits_zero] at hlen
    have hnil : steps = [] := List.eq_nil_of_length_eq_zero hlen
    subst hnil
    simp [readSteps?]
  | succ fuel ih =>
    intro k dt steps rest hf hlen hsz
    have hdd : dt / 2 ^ k / 2 = dt / 2 ^ (k + 1) := by
      rw [Nat.div_div_eq_div_mul, pow_succ]
    have hf' : dt / 2 ^ (k + 1) < 2 ^ fuel := by
      rw [← hdd]
      rw [pow_succ] at hf
      omega
    by_cases hble : 2 ^ k ≤ dt
    · by_cases hbit : dt &&& 2 ^ k ≠ 0
      · have hm : dt / 2 ^ k % 2 = 1 := (and_two_pow_ne_zero_iff dt k).mp hbit
        have hmne : dt / 2 ^ k ≠ 0 := by omega
        have hlen' : steps.length = countBits (dt / 2 ^ (k + 1)) + 1 := by
          rw [hlen, countBits_of_ne_zero _ hmne, hm, hdd]
        obtain ⟨s, steps', rfl⟩ : ∃ s steps', steps = s :: steps' := by
          cases steps with
          | nil => simp at hlen'
          | cons a l => exact ⟨a, l, rfl⟩
        unfold readSteps?
        rw [if_pos hble, if_pos hbit]
        have hlist : (s :: steps').bind u16be ++ rest =
            u16be s ++ (steps'.bind u16be ++ rest) := by
          simp [List.cons_bind]
        rw [hlist, readU16?_u16be s (hsz s (by simp)) _]
        have hrec := ih (k + 1) dt steps' rest hf'
          (by simpa using hlen') (fun s' hs' => hsz s' (by simp [hs']))
        rw [show 2 ^ k * 2 = 2 ^ (k + 1) by rw [pow_succ]]
        simp only [hrec]
      · have hm : dt / 2 ^ k % 2 = 0 := by
          have := (and_two_pow_ne_zero_iff dt k).not.mp hbit
          omega
        have hlen' : steps.length = countBits (dt / 2 ^ (k + 1)) := by
          by_cases h0 : dt / 2 ^ k = 0
          · rw [hlen, h0, ← hdd, h0]
          · rw [hlen, countBits_of_ne_zero _ h0, hm, hdd]
            omega
        unfold readSteps?
        rw [if_pos hble, if_neg hbit]
        rw [show 2 ^ k * 2 = 2 ^ (k + 1) by rw [pow_succ]]
        exact ih (k + 1) dt steps rest hf' hlen' hsz
    · have h0 : dt / 2 ^ k = 0 := Nat.div_eq_of_lt (by omega)
      rw [h0, countBits_zero] at hlen
      have hnil : steps = [] := List.eq_nil_of_length_eq_zero hlen
      subst hnil
      unfold readSteps?
      rw [if_neg hble]
      simp

private lemma bind_u16be_length (l : List Nat) : (l.bind u16be).length = 2 * l.length := by
  induction l with
  | nil => rfl
  | cons a l ih =>
    simp only [List.cons_bind, List.length_append, List.length_cons, ih, u16be]
    simp
    omega

/-- The serialized request, field for field: deserializing yields the original
request with its request-sequence field replaced by the serialized one. -/
private lemma deserialize_serialize (r : ScanRequest) (seq : Nat)
    (hwf : r.WellFormed) (hseq : seq < 256) :
    ScanRequest.Deserialize (r.Serialize seq) =
      some { r with m_request_sequence := seq } := by
  obtain ⟨hmagic, hrt, hshid, hcam, hlas, hdep, hflags, hrseq, hle1, hle2, hle3,
    hce1, hce2, hce3, hldt, hsat, hsap, havg, hsi, hso, hns, hip, hport,
    hdt, hsc, hec, hsteps, hstepsz⟩ := hwf
  have hrt256 : r.m_request_type < 256 := by omega
  have hgt : ¬ (7 < r.m_request_type % 256) := by omega
  have hgt2 : ¬ (7 < r.m_request_type) := by omega
  have hstepsEq : readSteps? r.m_data_types 1 17 (r.m_steps.bind u16be) =
      some (r.m_steps, []) := by
    have h1 : r.m_steps.bind u16be = r.m_steps.bind u16be ++ [] := by simp
    rw [h1, show (1 : Nat) = 2 ^ 0 by norm_num]
    exact readSteps?_spec 17 0 r.m_data_types r.m_steps []
      (by
        have h17 : (2 : Nat) ^ 17 = 131072 := by norm_num
        rw [pow_zero, Nat.div_one, h17]
        omega)
      (by rw [pow_zero, Nat.div_one]; exact hsteps) hstepsz
  unfold ScanRequest.Serialize ScanRequest.Deserialize
  simp only [List.append_assoc, List.cons_append, List.nil_append]
  simp only [readU16?_u16be kCommandMagic (by norm_num [kCommandMagic]),
    readU32?_u32be r.m_client_ip hip, readU16?_u16be r.m_client_port hport,
    readU32?_u32be r.m_laser_exposure_min_us hle1,
    readU32?_u32be r.m_laser_exposure_def_us hle2,
    readU32?_u32be r.m_laser_exposure_max_us hle3,
    readU32?_u32be r.m_camera_exposure_min_us hce1,
    readU32?_u32be r.m_camera_exposure_def_us hce2,
    readU32?_u32be r.m_camera_exposure_max_us hce3,
    readU32?_u32be r.m_laser_detection_threshold hldt,
    readU32?_u32be r.m_saturation_threshold hsat,
    readU32?_u32be r.m_saturation_percentage hsap,
    readU32?_u32be r.m_average_intensity havg,
    readU32?_u32be r.m_scan_interval_us hsi,
    readU32?_u32be r.m_scan_offset_us hso,
    readU32?_u32be r.m_number_of_scans hns,
    readU16?_u16be r.m_data_types hdt, readU16?_u16be r.m_start_col hsc,
    readU16?_u16be r.m_end_col hec, readU8?, hstepsEq,
    ne_eq, eq_self_iff_true, not_true_eq_false, if_false, if_neg hgt, if_neg hgt2,
    Nat.mod_eq_of_lt hseq, Nat.mod_eq_of_lt hshid, Nat.mod_eq_of_lt hcam,
    Nat.mod_eq_of_lt hlas, Nat.mod_eq_of_lt hdep, Nat.mod_eq_of_lt hflags,
    Nat.mod_eq_of_lt hrt256]
  rw [← hmagic]

/-- Claim C8: for every valid scan request, deserializing the serialized
datagram (serialized with the request's own sequence byte) yields a request
equal to the original over all fields including the step vector; and the
length byte written at offset 2 equals the total serialized byte length. -/
theorem scanRequest_roundtrip (r : ScanRequest) (hwf : r.WellFormed) :
    ScanRequest.Deserialize (r.Serialize r.m_request_sequence) = some r ∧
      (r.Serialize r.m_request_sequence).getD 2 0 =
        (r.Serialize r.m_request_sequence).length := by
  constructor
  · exact deserialize_serialize r r.m_request_sequence hwf
      (by exact hwf.2.2.2.2.2.2.2.1)
  · have hlenlt : r.Length < 256 := by
      have hdtlt : r.m_data_types < 65536 := hwf.2.2.2.2.2.2.2.2.2.2.2.2.2.2.2.2.2.2.2.2.2.2.2.1
      have hcb : countBits r.m_data_types ≤ 16 :=
        countBits_le 16 r.m_data_types (by omega)
      have hsl : r.m_steps.length = countBits r.m_data_types :=
        hwf.2.2.2.2.2.2.2.2.2.2.2.2.2.2.2.2.2.2.2.2.2.2.2.2.2.2.1
      unfold ScanRequest.Length
      omega
    have hslen : (r.Serialize r.m_request_sequence).length = r.Length := by
      unfold ScanRequest.Serialize ScanRequest.Length
      simp only [List.length_append, List.length_cons, List.length_nil,
        u16be, u32be, bind_u16be_length]
      omega
    have hbyte : (r.Serialize r.m_request_sequence).getD 2 0 = r.Length % 256 := by
      unfold ScanRequest.Serialize u16be
      simp only [List.append_assoc, List.cons_append, List.nil_append]
      rfl
    rw [hbyte, hslen, Nat.mod_eq_of_lt hlenlt]

/-- Witness for claim C8 at a concrete request with data types
`Brightness|XYData = 3` and steps `[1, 1]`. -/
theorem scanRequest_roundtrip_witness :
    ({ m_magic := 0xFACE, m_request_type := 2, m_scan_head_id := 4,
       m_camera_id := 0, m_laser_id := 0, DEPRECATED_DO_NOT_USE := 0,
       m_laser_exposure_min_us := 100, m_laser_exposure_def_us := 500,
       m_laser_exposure_max_us := 1000, m_camera_exposure_min_us := 10000,
       m_camera_exposure_def_us := 500000, m_camera_exposure_max_us := 1000000,
       m_laser_detection_threshold := 120, m_saturation_threshold := 800,
       m_saturation_percentage := 30, m_average_intensity := 50,
       m_scan_interval_us := 2000, m_scan_offset_us := 0,
       m_number_of_scans := 4294967295, m_client_ip := 0xC0A80101,
       m_client_port := 12345, m_flags := 0, m_request_sequence := 5,
       m_data_types := 3, m_start_col := 0, m_end_col := 1455,
       m_steps := [1, 1] } : ScanRequest).WellFormed ∧
      (ScanRequest.Deserialize
          (ScanRequest.Serialize
            { m_magic := 0xFACE, m_request_type := 2, m_scan_head_id := 4,
              m_camera_id := 0, m_laser_id := 0, DEPRECATED_DO_NOT_USE := 0,
              m_laser_exposure_min_us := 100, m_laser_exposure_def_us := 500,
              m_laser_exposure_max_us := 1000, m_camera_exposure_min_us := 10000,
              m_camera_exposure_def_us := 500000, m_camera_exposure_max_us := 1000000,
              m_laser_detection_threshold := 120, m_saturation_threshold := 800,
              m_saturation_percentage := 30, m_average_intensity := 50,
              m_scan_interval_us := 2000, m_scan_offset_us := 0,
              m_number_of_scans := 4294967295, m_client_ip := 0xC0A80101,
              m_client_port := 12345, m_flags := 0, m_request_sequence := 5,
              m_data_types := 3, m_start_col := 0, m_end_col := 1455,
              m_steps := [1, 1] } 5) =
        some { m_magic := 0xFACE, m_request_type := 2, m_scan_head_id := 4,
               m_camera_id := 0, m_laser_id := 0, DEPRECATED_DO_NOT_USE := 0,
               m_laser_exposure_min_us := 100, m_laser_exposure_def_us := 500,
               m_laser_exposure_max_us := 1000, m_camera_exposure_min_us := 10000,
               m_camera_exposure_def_us := 500000, m_camera_exposure_max_us := 1000000,
               m_laser_detection_threshold := 120, m_saturation_threshold := 800,
               m_saturation_percentage := 30, m_average_intensity := 50,
               m_scan_interval_us := 2000, m_scan_offset_us := 0,
               m_number_of_scans := 4294967295, m_client_ip := 0xC0A80101,
               m_client_port := 12345, m_flags := 0, m_request_sequence := 5,
               m_data_types := 3, m_start_col := 0, m_end_col := 1455,
               m_steps := [1, 1] } ∧
        (ScanRequest.Serialize
            { m_magic := 0xFACE, m_request_type := 2, m_scan_head_id := 4,
              m_camera_id := 0, m_laser_id := 0, DEPRECATED_DO_NOT_USE := 0,
              m_laser_exposure_min_us := 100, m_laser_exposure_def_us := 500,
              m_laser_exposure_max_us := 1000, m_camera_exposure_min_us := 10000,
              m_camera_exposure_def_us := 500000, m_camera_exposure_max_us := 1000000,
              m_laser_detection_threshold := 120, m_saturation_threshold := 800,
              m_saturation_percentage := 30, m_average_intensity := 50,
              m_scan_interval_us := 2000, m_scan_offset_us := 0,
              m_number_of_scans := 4294967295, m_client_ip := 0xC0A80101,
              m_client_port := 12345, m_flags := 0, m_request_sequence := 5,
              m_data_types := 3, m_start_col := 0, m_end_col := 1455,
              m_steps := [1, 1] } 5).getD 2 0 =
          (ScanRequest.Serialize
            { m_magic := 0xFACE, m_request_type := 2, m_scan_head_id := 4,
              m_camera_id := 0, m_laser_id := 0, DEPRECATED_DO_NOT_USE := 0,
              m_laser_exposure_min_us := 100, m_laser_exposure_def_us := 500,
              m_laser_exposure_max_us := 1000, m_camera_exposure_min_us := 10000,
              m_camera_exposure_def_us := 500000, m_camera_exposure_max_us := 1000000,
              m_laser_detection_threshold := 120, m_saturation_threshold := 800,
              m_saturation_percentage := 30, m_average_intensity := 50,
              m_scan_interval_us := 2000, m_scan_offset_us := 0,
              m_number_of_scans := 4294967295, m_client_ip := 0xC0A80101,
              m_client_port := 12345, m_flags := 0, m_request_sequence := 5,
              m_data_types := 3, m_start_col := 0, m_end_col := 1455,
              m_steps := [1, 1] } 5).length) := by
  have hwf : ({ m_magic := 0xFACE, m_request_type := 2, m_scan_head_id := 4,
                m_camera_id := 0, m_laser_id := 0, DEPRECATED_DO_NOT_USE := 0,
                m_laser_exposure_min_us := 100, m_laser_exposure_def_us := 500,
                m_laser_exposure_max_us := 1000, m_camera_exposure_min_us := 10000,
                m_camera_exposure_def_us := 500000, m_camera_exposure_max_us := 1000000,
                m_laser_detection_threshold := 120, m_saturation_threshold := 800,
                m_saturation_percentage := 30, m_average_intensity := 50,
                m_scan_interval_us := 2000, m_scan_offset_us := 0,
                m_number_of_scans := 4294967295, m_client_ip := 0xC0A80101,
                m_client_port := 12345, m_flags := 0, m_request_sequence := 5,
                m_data_types := 3, m_start_col := 0, m_end_col := 1455,
                m_steps := [1, 1] } : ScanRequest).WellFormed := by
    unfold ScanRequest.WellFormed
    refine ⟨rfl, by norm_num, by norm_num, by norm_num, by norm_num, by norm_num,
      by norm_num, by norm_num, by norm_num, by norm_num, by norm_num, by norm_num,
      by norm_num, by norm_num, by norm_num, by norm_num, by norm_num, by norm_num,
      by norm_num, by norm_num, by norm_num, by norm_num, by norm_num, by norm_num,
      by norm_num, by norm_num,
      by norm_num [countBits_of_ne_zero 3 (by norm_num),
        countBits_of_ne_zero 1 (by norm_num), countBits_zero],
      by decide⟩
  exact ⟨hwf, scanRequest_roundtrip _ hwf⟩

/-! ## The per-pair XY processing of ScanHead::ProcessPacket (ScanHead.cpp)

`htons` of the two payload bytes yields a 16-bit wire value `w < 65536`.  The
combined Brightness+XYData branch reads it into `int16_t` (the i16
interpretation); the XYData-only branch reads it into `uint16_t`, whose `int`
promotion is what gets compared against `JS_PROFILE_DATA_INVALID_XY`.  The
per-camera `CameraToMill` transform is abstracted by `transform`. -/

def toInt16 (w : Nat) : Int := if w < 32768 then (w : Int) else (w : Int) - 65536

/-- One `(x, y, brightness)` iteration of the Brightness+XYData branch of
`ScanHead::ProcessPacket`: `int16_t x_raw` reads, sentinel check, transform,
`InsertPointAndBrightness`. -/
def ScanHead.ProcessPairBrightnessXY (transform : Int × Int → Int × Int)
    (profile : Profile) (idx : Nat) (wx wy : Nat) (brightness : Int) : Profile :=
  if toInt16 wx ≠ JS_PROFILE_DATA_INVALID_XY ∧ toInt16 wy ≠ JS_PROFILE_DATA_INVALID_XY then
    profile.InsertPointAndBrightness idx (transform (toInt16 wx, toInt16 wy)).1
      (transform (toInt16 wx, toInt16 wy)).2 brightness
  else profile

/-- One `(x, y)` iteration of the XYData-only branch of
`ScanHead::ProcessPacket`: `uint16_t x_raw` reads, the (promoted) unsigned
value is compared against the sentinel, then transformed and inserted. -/
def ScanHead.ProcessPairXYOnly (transform : Int × Int → Int × Int)
    (profile : Profile) (idx : Nat) (wx wy : Nat) : Profile :=
  if (wx : Int) ≠ JS_PROFILE_DATA_INVALID_XY ∧ (wy : Int) ≠ JS_PROFILE_DATA_INVALID_XY then
    profile.InsertPoint idx (transform ((wx : Int), (wy : Int))).1
      (transform ((wx : Int), (wy : Int))).2
  else profile

/-- Claim C1 (code bug exhibit): on the sentinel wire pair 0x8000/0x8000
(unsigned 32768, i16 value -32768) the combined Brightness+XYData branch skips
the pair — profile unchanged — but the XYData-only branch compares the
unsigned 32768 against -32768, never equal, and therefore transforms and
inserts the bogus pair and increments the valid-geometry counter. -/
theorem processPacket_xyonly_sentinel_not_skipped :
    toInt16 32768 = JS_PROFILE_DATA_INVALID_XY ∧
      ScanHead.ProcessPairBrightnessXY (fun q => q)
          (Profile.init (DataType.Brightness ||| DataType.XYData)) 0 32768 32768 99 =
        Profile.init (DataType.Brightness ||| DataType.XYData) ∧
      (ScanHead.ProcessPairXYOnly (fun q => q)
          (Profile.init DataType.XYData) 0 32768 32768).numValidGeometry = 1 ∧
      ScanHead.ProcessPairXYOnly (fun q => q)
          (Profile.init DataType.XYData) 0 32768 32768 ≠
        Profile.init DataType.XYData := by
  have hskip : ¬ (toInt16 32768 ≠ JS_PROFILE_DATA_INVALID_XY ∧
      toInt16 32768 ≠ JS_PROFILE_DATA_INVALID_XY) := by decide
  have hins : ((32768 : Nat) : Int) ≠ JS_PROFILE_DATA_INVALID_XY ∧
      ((32768 : Nat) : Int) ≠ JS_PROFILE_DATA_INVALID_XY := by decide
  have hgeom : (ScanHead.ProcessPairXYOnly (fun q => q)
      (Profile.init DataType.XYData) 0 32768 32768).numValidGeometry = 1 := by
    unfold ScanHead.ProcessPairXYOnly
    rw [if_pos hins]
    unfold Profile.InsertPoint
    rw [if_pos (by decide : 0 < (Profile.init DataType.XYData).dataSize)]
    rfl
  refine ⟨by decide, ?_, hgeom, ?_⟩
  · unfold ScanHead.ProcessPairBrightnessXY
    rw [if_neg hskip]
  · intro h
    have hc := congrArg Profile.numValidGeometry h
    rw [hgeom] at hc
    exact absurd hc (by decide)

/-- Witness for C4 at a concrete full ring of 1000 entries. -/
theorem pushProfile_ring_bound_witness :
    (List.replicate 1000 (0 : Nat)).length ≤ JS_SCAN_HEAD_PROFILES_MAX ∧
      ((ScanHead.PushProfile (List.replicate 1000 (0 : Nat)) 7).length ≤
          JS_SCAN_HEAD_PROFILES_MAX ∧
        ((List.replicate 1000 (0 : Nat)).length = JS_SCAN_HEAD_PROFILES_MAX →
          ∃ oldest rest, List.replicate 1000 (0 : Nat) = oldest :: rest ∧
            ScanHead.PushProfile (List.replicate 1000 (0 : Nat)) 7 = rest ++ [7]) ∧
        (∀ count : Nat,
          (ScanHead.GetProfiles (List.replicate 1000 (0 : Nat)) count).1 =
              (List.replicate 1000 (0 : Nat)).take count ∧
            (ScanHead.GetProfiles (List.replicate 1000 (0 : Nat)) count).1 ++
                (ScanHead.GetProfiles (List.replicate 1000 (0 : Nat)) count).2 =
              List.replicate 1000 (0 : Nat))) := by
  refine ⟨by rw [List.length_replicate, JS_SCAN_HEAD_PROFILES_MAX], ?_⟩
  exact pushProfile_ring_bound (List.replicate 1000 0) 7
    (by rw [List.length_replicate, JS_SCAN_HEAD_PROFILES_MAX])


/-! ## StartScanning (ScanManager.cpp) and the ScanRequest constructor
(ScanRequestMessage.cpp / DataFormats.cpp) -/

/-- `jsDataFormat` (joescan_pinchot.h). -/
inductive JsDataFormat where
  | XY_FULL_LM_FULL
  | XY_HALF_LM_HALF
  | XY_QUARTER_LM_QUARTER
  | XY_FULL
  | XY_HALF
  | XY_QUARTER
  | CAMERA_IMAGE_FULL
  deriving DecidableEq

/-- `DataFormats::GetDataType` (DataFormats.cpp): `formats[format].first`.
`JS_DATA_FORMAT_CAMERA_IMAGE_FULL` has no entry in the static map, so
`std::map::operator[]` default-inserts a value-initialized pair:
`(DataType)0` with an empty step vector. -/
def DataFormats.GetDataType : JsDataFormat → Nat
  | .XY_FULL_LM_FULL => DataType.Brightness ||| DataType.XYData
  | .XY_HALF_LM_HALF => DataType.Brightness ||| DataType.XYData
  | .XY_QUARTER_LM_QUARTER => DataType.Brightness ||| DataType.XYData
  | .XY_FULL => DataType.XYData
  | .XY_HALF => DataType.XYData
  | .XY_QUARTER => DataType.XYData
  | .CAMERA_IMAGE_FULL => 0

/-- `DataFormats::GetStep` (DataFormats.cpp): `formats[format].second`. -/
def DataFormats.GetStep : JsDataFormat → List Nat
  | .XY_FULL_LM_FULL => [1, 1]
  | .XY_HALF_LM_HALF => [2, 2]
  | .XY_QUARTER_LM_QUARTER => [4, 4]
  | .XY_FULL => [1]
  | .XY_HALF => [2]
  | .XY_QUARTER => [4]
  | .CAMERA_IMAGE_FULL => []

/-- `jsScanHeadConfiguration` (joescan_pinchot.h), the uint32 fields the
`ScanRequest` constructor reads. -/
structure JsScanHeadConfiguration where
  scan_offset_us : Nat
  camera_exposure_time_min_us : Nat
  camera_exposure_time_max_us : Nat
  camera_exposure_time_def_us : Nat
  laser_on_time_min_us : Nat
  laser_on_time_max_us : Nat
  laser_on_time_def_us : Nat
  laser_detection_threshold : Nat
  saturation_threshold : Nat
  saturation_percentage : Nat
  deriving DecidableEq

/-- `ScanRequest::ScanRequest(jsDataFormat, uint32_t, int, int, uint32_t,
uint32_t, const jsScanHeadConfiguration &)` (ScanRequestMessage.cpp).  The
constructor body never assigns `magic`, `DEPRECATED_DO_NOT_USE` or
`requestSequence`, so those members keep indeterminate values; they enter
here as explicit arguments.  `requestType` keeps its member initializer
`UdpPacketType::StartScanning = 2` (ScanRequestMessage.hpp,
PinchotConstants.hpp).  `numberOfScans` maps a zero `scanCount` to 1000000. -/
def ScanRequest.construct (format : JsDataFormat)
    (clientAddress clientPort scan_head_id interval scanCount : Nat)
    (config : JsScanHeadConfiguration)
    (indeterminate_magic indeterminate_deprecated indeterminate_sequence : Nat) :
    ScanRequest :=
  { m_magic := indeterminate_magic
    m_request_type := 2
    m_scan_head_id := scan_head_id
    m_camera_id := 0
    m_laser_id := 0
    DEPRECATED_DO_NOT_USE := indeterminate_deprecated
    m_laser_exposure_min_us := config.laser_on_time_min_us
    m_laser_exposure_def_us := config.laser_on_time_def_us
    m_laser_exposure_max_us := config.laser_on_time_max_us
    m_camera_exposure_min_us := config.camera_exposure_time_min_us
    m_camera_exposure_def_us := config.camera_exposure_time_def_us
    m_camera_exposure_max_us := config.camera_exposure_time_max_us
    m_laser_detection_threshold := config.laser_detection_threshold
    m_saturation_threshold := config.saturation_threshold
    m_saturation_percentage := config.saturation_percentage
    m_average_intensity := 50
    m_scan_interval_us := interval
    m_scan_offset_us := config.scan_offset_us
    m_number_of_scans := if scanCount = 0 then 1000000 else scanCount
    m_client_ip := clientAddress
    m_client_port := clientPort
    m_flags := 0
    m_request_sequence := indeterminate_sequence
    m_data_types := DataFormats.GetDataType format
    m_start_col := 0
    m_end_col := 1455
    m_steps := DataFormats.GetStep format }

/-- The per-head state `ScanManager::StartScanning` reads: the head's IP
address, its receiver's port, its id, its chosen data format and its
configuration.  The three `indeterminate_` fields carry the indeterminate
values of the `ScanRequest` members its constructor leaves unassigned. -/
structure ScanHeadInfo where
  ip_address : Nat
  port : Nat
  id : Nat
  data_format : JsDataFormat
  config : JsScanHeadConfiguration
  indeterminate_magic : Nat
  indeterminate_deprecated : Nat
  indeterminate_sequence : Nat
  deriving DecidableEq

/-- The request-building loop of `ScanManager::StartScanning()`
(ScanManager.cpp), reached in the Connected, non-scanning state:
`scan_interval_us = (1.0 / scan_rate_hz) * 1e6`;
`interval = static_cast<uint32_t>(scan_interval_us)` truncates toward zero;
`static_cast<uint32_t>(ceil(interval))` applies `ceil` to an already integral
value, a no-op.  Each head gets
`ScanRequest(format, 0, port, id, interval, 0xFFFFFFFF, config)` serialized
with the current `session_id`, paired with the head's IP address. -/
def ScanManager.StartScanning (scan_rate_hz : ℚ) (session_id : Nat)
    (heads : List ScanHeadInfo) : List (Nat × List Nat) :=
  heads.map fun h =>
    (h.ip_address,
      (ScanRequest.construct h.data_format 0 h.port h.id
          (ratTrunc ((1 / scan_rate_hz) * 1000000)).toNat
          4294967295 h.config h.indeterminate_magic
          h.indeterminate_deprecated h.indeterminate_sequence).Serialize
        session_id)

/-- A concrete scan head used to exercise `ScanManager.StartScanning`. -/
def demoScanHeadInfo : ScanHeadInfo :=
  { ip_address := 3232235777
    port := 12345
    id := 4
    data_format := JsDataFormat.XY_FULL_LM_FULL
    config :=
      { scan_offset_us := 0
        camera_exposure_time_min_us := 10000
        camera_exposure_time_max_us := 1000000
        camera_exposure_time_def_us := 500000
        laser_on_time_min_us := 100
        laser_on_time_max_us := 1000
        laser_on_time_def_us := 500
        laser_detection_threshold := 120
        saturation_threshold := 800
        saturation_percentage := 30 }
    indeterminate_magic := 0
    indeterminate_deprecated := 0
    indeterminate_sequence := 0 }

private lemma countBits_one : countBits 1 = 1 := by
  rw [countBits_of_ne_zero 1 (by norm_num)]
  norm_num [countBits_zero]

private lemma countBits_two : countBits 2 = 1 := by
  rw [countBits_of_ne_zero 2 (by norm_num)]
  norm_num [countBits_one]

private lemma countBits_three : countBits 3 = 2 := by
  rw [countBits_of_ne_zero 3 (by norm_num)]
  norm_num [countBits_one]

private lemma steps_length_eq_countBits (f : JsDataFormat) :
    (DataFormats.GetStep f).length = countBits (DataFormats.GetDataType f) := by
  cases f <;>
    simp [DataFormats.GetStep, DataFormats.GetDataType, DataType.Brightness,
      DataType.XYData, countBits_zero, countBits_two, countBits_three]

private lemma getDataType_lt (f : JsDataFormat) :
    DataFormats.GetDataType f < 65536 := by
  cases f <;> decide

private lemma getStep_sizes (f : JsDataFormat) :
    ∀ s ∈ DataFormats.GetStep f, s < 65536 := by
  cases f <;> decide

private lemma mem_zip_map {α β : Type} (f : α → β) :
    ∀ (l : List α) (p : β × α), p ∈ (l.map f).zip l → p.1 = f p.2 ∧ p.2 ∈ l := by
  intro l
  induction l with
  | nil => intro p hp; cases hp
  | cons a t ih =>
    intro p hp
    simp only [List.map_cons, List.zip_cons_cons, List.mem_cons] at hp
    rcases hp with h | h
    · rw [h]
      exact ⟨rfl, by simp⟩
    · obtain ⟨h1, h2⟩ := ih p h
      exact ⟨h1, List.mem_cons_of_mem _ h2⟩

/-- Claim C9 counterexample: at scan rate 1500 Hz the enqueued datagram for a
head carries scan interval `trunc(10^6 / 1500) = 666` in its four interval
bytes (offsets 56..59), while the claimed `round(10^6 / 1500)` is 667. -/
theorem startScanning_interval_not_rounded :
    (((ScanManager.StartScanning 1500 7 [demoScanHeadInfo]).headI.2.drop 56).take 4 =
        u32be 666) ∧
      round ((1000000 : ℚ) / 1500) = 667 ∧ u32be 666 ≠ u32be 667 := by
  have hrt : (ratTrunc ((1 / (1500 : ℚ)) * 1000000)).toNat = 666 := by
    rw [ratTrunc, if_pos (by norm_num)]
    have hfl : ⌊(1 / (1500 : ℚ)) * 1000000⌋ = 666 := by
      rw [Int.floor_eq_iff]
      constructor <;> norm_num
    rw [hfl]
    rfl
  refine ⟨?_, ?_, by decide⟩
  · unfold ScanManager.StartScanning
    simp only [List.map_cons, List.map_nil, List.headI]
    rw [hrt]
    decide
  · rw [round_eq]
    have hfl : ⌊(1000000 : ℚ) / 1500 + 1 / 2⌋ = 667 := by
      rw [Int.floor_eq_iff]
      constructor <;> norm_num
    rw [hfl]

/-- Claim C9 (amended): invoked in the Connected state with an in-range scan
rate, StartScanning builds exactly one scan request per registered head;
deserializing the datagram enqueued for a head yields a request whose scan
interval is `trunc(10^6 / rate_hz)` — the C truncation toward zero, not the
spec's `round(10^6 / rate_hz)` — whose number-of-scans is 0xFFFFFFFF, whose
data-type mask and step vector are those of the head's chosen format, and
whose request-sequence byte is the current session id; the datagram is
addressed to the head's IP. -/
theorem startScanning_builds_requests (rate : ℚ) (session_id : Nat)
    (heads : List ScanHeadInfo)
    (hrate : kPinchotConstantMinScanRate ≤ rate ∧
      rate ≤ kPinchotConstantMaxScanRate)
    (hsid : session_id < 256)
    (hheads : ∀ h ∈ heads, h.port < 65536 ∧ h.id < 256 ∧
      h.indeterminate_deprecated < 256 ∧ h.indeterminate_sequence < 256 ∧
      h.config.scan_offset_us < 4294967296 ∧
      h.config.camera_exposure_time_min_us < 4294967296 ∧
      h.config.camera_exposure_time_max_us < 4294967296 ∧
      h.config.camera_exposure_time_def_us < 4294967296 ∧
      h.config.laser_on_time_min_us < 4294967296 ∧
      h.config.laser_on_time_max_us < 4294967296 ∧
      h.config.laser_on_time_def_us < 4294967296 ∧
      h.config.laser_detection_threshold < 4294967296 ∧
      h.config.saturation_threshold < 4294967296 ∧
      h.config.saturation_percentage < 4294967296) :
    (ScanManager.StartScanning rate session_id heads).length = heads.length ∧
      ∀ ph ∈ (ScanManager.StartScanning rate session_id heads).zip heads,
        ph.1.1 = ph.2.ip_address ∧
        ∃ req : ScanRequest,
          ScanRequest.Deserialize ph.1.2 = some req ∧
          req.m_scan_interval_us = (ratTrunc (1000000 / rate)).toNat ∧
          req.m_number_of_scans = 4294967295 ∧
          req.m_data_types = DataFormats.GetDataType ph.2.data_format ∧
          req.m_steps = DataFormats.GetStep ph.2.data_format ∧
          req.m_request_sequence = session_id := by
  have hr0 : (0 : ℚ) < rate := by
    have h5 : (1 / 5 : ℚ) ≤ rate := hrate.1
    linarith
  have hq : (1 / rate) * 1000000 = 1000000 / rate := by ring
  have hqnn : (0 : ℚ) ≤ (1 / rate) * 1000000 := by positivity
  have hle : (1 / rate) * 1000000 ≤ 5000000 := by
    have h5 : (1 / 5 : ℚ) ≤ rate := hrate.1
    rw [div_mul_eq_mul_div, one_mul, div_le_iff hr0]
    nlinarith
  have hint : (ratTrunc ((1 / rate) * 1000000)).toNat < 4294967296 := by
    rw [ratTrunc, if_pos hqnn]
    have h1 : ⌊(1 / rate) * 1000000⌋ ≤ ⌊(5000000 : ℚ)⌋ := Int.floor_le_floor hle
    have h2 : ⌊(5000000 : ℚ)⌋ = 5000000 := by norm_num
    omega
  refine ⟨by simp [ScanManager.StartScanning], ?_⟩
  intro ph hph
  unfold ScanManager.StartScanning at hph
  obtain ⟨hph1, hmem⟩ := mem_zip_map _ heads ph hph
  obtain ⟨hport, hid, hdep, hseq, hc1, hc2, hc3, hc4, hc5, hc6, hc7, hc8, hc9,
    hc10⟩ := hheads ph.2 hmem
  refine ⟨by rw [hph1], ?_⟩
  set h := ph.2 with hh
  have hwf' : ScanRequest.WellFormed
      { ScanRequest.construct h.data_format 0 h.port h.id
          (ratTrunc ((1 / rate) * 1000000)).toNat 4294967295 h.config
          h.indeterminate_magic h.indeterminate_deprecated
          h.indeterminate_sequence with m_magic := kCommandMagic } := by
    exact ⟨rfl, (by norm_num : (2 : Nat) ≤ 7), hid,
      (by norm_num : (0 : Nat) < 256), (by norm_num : (0 : Nat) < 256), hdep,
      (by norm_num : (0 : Nat) < 256), hseq, hc5, hc7, hc6, hc2, hc4, hc3,
      hc8, hc9, hc10, (by norm_num : (50 : Nat) < 4294967296), hint, hc1,
      (by norm_num : (4294967295 : Nat) < 4294967296),
      (by norm_num : (0 : Nat) < 4294967296), hport,
      getDataType_lt h.data_format, (by norm_num : (0 : Nat) < 65536),
      (by norm_num : (1455 : Nat) < 65536),
      steps_length_eq_countBits h.data_format, getStep_sizes h.data_format⟩
  have hd := deserialize_serialize _ session_id hwf' hsid
  refine ⟨{ ScanRequest.construct h.data_format 0 h.port h.id
        (ratTrunc ((1 / rate) * 1000000)).toNat 4294967295 h.config
        h.indeterminate_magic h.indeterminate_deprecated
        h.indeterminate_sequence with
      m_magic := kCommandMagic, m_request_sequence := session_id },
    ?_, ?_, rfl, rfl, rfl, rfl⟩
  · rw [hph1]
    exact hd
  · show (ratTrunc ((1 / rate) * 1000000)).toNat = (ratTrunc (1000000 / rate)).toNat
    rw [hq]


/-- Witness for the amended claim C9 at scan rate 1000 Hz, session id 7 and
one concrete head. -/
theorem startScanning_builds_requests_witness :
    (kPinchotConstantMinScanRate ≤ (1000 : ℚ) ∧
        (1000 : ℚ) ≤ kPinchotConstantMaxScanRate) ∧
      ((ScanManager.StartScanning 1000 7 [demoScanHeadInfo]).length =
          [demoScanHeadInfo].length ∧
        ∀ ph ∈ (ScanManager.StartScanning 1000 7
            [demoScanHeadInfo]).zip [demoScanHeadInfo],
          ph.1.1 = ph.2.ip_address ∧
          ∃ req : ScanRequest,
            ScanRequest.Deserialize ph.1.2 = some req ∧
            req.m_scan_interval_us = (ratTrunc (1000000 / (1000 : ℚ))).toNat ∧
            req.m_number_of_scans = 4294967295 ∧
            req.m_data_types = DataFormats.GetDataType ph.2.data_format ∧
            req.m_steps = DataFormats.GetStep ph.2.data_format ∧
            req.m_request_sequence = 7) := by
  have hrate : kPinchotConstantMinScanRate ≤ (1000 : ℚ) ∧
      (1000 : ℚ) ≤ kPinchotConstantMaxScanRate := by
    constructor <;>
      norm_num [kPinchotConstantMinScanRate, kPinchotConstantMaxScanRate]
  exact ⟨hrate, startScanning_builds_requests 1000 7 [demoScanHeadInfo] hrate
    (by norm_num) (by decide)⟩

end Pinchot
